import Mathlib

/-! Verification of the diapos_ai worker pipeline: a shallow embedding of the
PDF slide-explainer worker (src/worker/pipeline.py, src/worker/callback.py,
src/worker/main.py) and of the Streamlit variant (src/slide_explainer.py),
with theorems about its response normalization, callback retry and signing,
slide extraction, endpoint validation and artifact generation. -/

namespace DiaposAI

/-- Decoded JSON values as produced by Python json.loads. Numerals are
restricted to integers: the parser model below rejects float literals
instead of approximating them, and no input evaluated here contains one. -/
inductive Json where
  | null
  | bool (b : Bool)
  | num (n : Int)
  | str (s : String)
  | arr (elems : List Json)
  | obj (kvs : List (String × Json))

mutual

/-- Structural equality of decoded JSON values, modelling Python == between
values decoded by json.loads (values of different types compare unequal;
bool-versus-int cross equality of Python never arises in the inputs
evaluated here). -/
def Json.beq : Json → Json → Bool
  | .null, .null => true
  | .bool a, .bool b => a == b
  | .num a, .num b => a == b
  | .str a, .str b => a == b
  | .arr xs, .arr ys => Json.beqList xs ys
  | .obj xs, .obj ys => Json.beqKvs xs ys
  | _, _ => false

/-- Elementwise equality of JSON lists. -/
def Json.beqList : List Json → List Json → Bool
  | [], [] => true
  | x :: xs, y :: ys => Json.beq x y && Json.beqList xs ys
  | _, _ => false

/-- Entrywise equality of JSON object bindings. -/
def Json.beqKvs : List (String × Json) → List (String × Json) → Bool
  | [], [] => true
  | (k1, v1) :: xs, (k2, v2) :: ys => k1 == k2 && Json.beq v1 v2 && Json.beqKvs xs ys
  | _, _ => false

end

instance : BEq Json := ⟨Json.beq⟩

/-- Python truthiness of a decoded JSON value. -/
def Json.truthy : Json → Bool
  | .null => false
  | .bool b => b
  | .num n => n != 0
  | .str s => !s.isEmpty
  | .arr xs => !xs.isEmpty
  | .obj kvs => !kvs.isEmpty

/-- Python expression x or y, on decoded JSON values. -/
def pyOr (x y : Json) : Json := if x.truthy then x else y

/-- Lookup in a decoded JSON object. Last binding wins, matching json.loads,
which keeps the last occurrence of a duplicated key. -/
def jlookup (kvs : List (String × Json)) (k : String) : Option Json :=
  kvs.foldl (fun acc p => if p.1 = k then some p.2 else acc) none

/-- Python dict.get(k, d) on a decoded JSON object. -/
def jget (kvs : List (String × Json)) (k : String) (d : Json) : Json :=
  (jlookup kvs k).getD d

/-- Python k in dict, for a decoded JSON object. -/
def hasKey (kvs : List (String × Json)) (k : String) : Bool :=
  (jlookup kvs k).isSome

/-- The ASCII whitespace characters stripped by Python str.strip() (the
unicode whitespace Python additionally strips never occurs in the inputs
evaluated here). -/
def pyWsChar (c : Char) : Bool :=
  c == ' ' || c == '\t' || c == '\n' || c == '\r' || c == '\x0b' || c == '\x0c'

/-- Python str.strip(): drop whitespace from both ends. -/
def pyStrip (s : String) : String :=
  String.mk (((s.data.dropWhile pyWsChar).reverse.dropWhile pyWsChar).reverse)

/-- Python str.lstrip(chars): drop leading characters contained in cs. -/
def pyLStripChars (s : String) (cs : List Char) : String :=
  String.mk (s.data.dropWhile (fun c => cs.contains c))

/-- Index of the first occurrence of needle in hay, if any. -/
def findSubIdx (needle : List Char) : List Char → Option Nat
  | [] => if needle = [] then some 0 else none
  | c :: rest =>
    if needle.isPrefixOf (c :: rest) then some 0
    else (findSubIdx needle rest).map (· + 1)

/-- Whether needle occurs as a contiguous substring of hay. -/
def containsSub (needle hay : List Char) : Bool :=
  (findSubIdx needle hay).isSome

/-! JSON parsing, modelling Python json.loads (strict mode). -/

/-- Whitespace accepted by json.loads between tokens. -/
def jsonWs (c : Char) : Bool :=
  c == ' ' || c == '\t' || c == '\n' || c == '\r'

/-- Drop leading JSON whitespace. -/
def skipWs (cs : List Char) : List Char := cs.dropWhile jsonWs

/-- Value of a hexadecimal digit. -/
def hexDigitVal (c : Char) : Option Nat :=
  if '0' ≤ c ∧ c ≤ '9' then some (c.toNat - '0'.toNat)
  else if 'a' ≤ c ∧ c ≤ 'f' then some (c.toNat - 'a'.toNat + 10)
  else if 'A' ≤ c ∧ c ≤ 'F' then some (c.toNat - 'A'.toNat + 10)
  else none

/-- Parse the remainder of a JSON string literal, the opening quote already
consumed; returns the decoded string and the input following the closing
quote. Handles the standard single-character escapes and \uXXXX (surrogate
pairs are not recombined; no input evaluated here uses one). Unescaped
control characters are rejected, as in the strict default of json.loads. -/
def parseJStringAux (acc : List Char) : List Char → Option (String × List Char)
  | [] => none
  | c :: rest =>
    if c = '"' then some (String.mk acc.reverse, rest)
    else if c = '\\' then
      match rest with
      | [] => none
      | e :: rest2 =>
        if e = '"' then parseJStringAux ('"' :: acc) rest2
        else if e = '\\' then parseJStringAux ('\\' :: acc) rest2
        else if e = '/' then parseJStringAux ('/' :: acc) rest2
        else if e = 'b' then parseJStringAux ('\x08' :: acc) rest2
        else if e = 'f' then parseJStringAux ('\x0c' :: acc) rest2
        else if e = 'n' then parseJStringAux ('\n' :: acc) rest2
        else if e = 'r' then parseJStringAux ('\r' :: acc) rest2
        else if e = 't' then parseJStringAux ('\t' :: acc) rest2
        else if e = 'u' then
          match rest2 with
          | h1 :: h2 :: h3 :: h4 :: rest3 =>
            match hexDigitVal h1, hexDigitVal h2, hexDigitVal h3, hexDigitVal h4 with
            | some v1, some v2, some v3, some v4 =>
              let v := ((v1 * 16 + v2) * 16 + v3) * 16 + v4
              if h : v.isValidChar then
                parseJStringAux (Char.ofNatAux v h :: acc) rest3
              else none
            | _, _, _, _ => none
          | _ => none
        else none
    else if c.toNat < 0x20 then none
    else parseJStringAux (c :: acc) rest

/-- Parse a run of decimal digits. -/
def parseDigits (acc : List Char) : List Char → (List Char × List Char)
  | [] => (acc.reverse, [])
  | c :: rest =>
    if c.isDigit then parseDigits (c :: acc) rest else (acc.reverse, c :: rest)

/-- Decimal value of a digit list. -/
def digitsVal (ds : List Char) : Nat :=
  ds.foldl (fun acc c => acc * 10 + (c.toNat - '0'.toNat)) 0

/-- Parse a JSON number at the head of the input. Only integer literals are
accepted; a fraction or exponent part makes the whole parse fail (json.loads
would return a float there; no input evaluated here contains one). The
leading-zero restriction of JSON is enforced. -/
def parseJNum (cs : List Char) : Option (Json × List Char) :=
  let (neg, cs1) :=
    match cs with
    | '-' :: rest => (true, rest)
    | _ => (false, cs)
  match parseDigits [] cs1 with
  | ([], _) => none
  | (ds, rest) =>
    if ds.length > 1 ∧ ds.headD '0' = '0' then none
    else
      match rest with
      | '.' :: _ => none
      | 'e' :: _ => none
      | 'E' :: _ => none
      | _ =>
        let v : Int := Int.ofNat (digitsVal ds)
        some (.num (if neg then -v else v), rest)

mutual

/-- Parse one JSON value at the head of the input (fuelled recursion; the
fuel supplied by jsonParse always suffices because every recursive call
consumes at least one character). -/
def parseVal : Nat → List Char → Option (Json × List Char)
  | 0, _ => none
  | fuel + 1, cs =>
    match cs with
    | [] => none
    | c :: rest =>
      if c = '"' then
        match parseJStringAux [] rest with
        | some (s, r) => some (.str s, r)
        | none => none
      else if c = '{' then parseObjBody fuel (skipWs rest)
      else if c = '[' then parseArrBody fuel (skipWs rest)
      else if ['t', 'r', 'u', 'e'].isPrefixOf cs then some (.bool true, cs.drop 4)
      else if ['f', 'a', 'l', 's', 'e'].isPrefixOf cs then some (.bool false, cs.drop 5)
      else if ['n', 'u', 'l', 'l'].isPrefixOf cs then some (.null, cs.drop 4)
      else if c = '-' ∨ c.isDigit then parseJNum cs
      else none

/-- Parse an object body, the opening brace and following whitespace already
consumed. -/
def parseObjBody : Nat → List Char → Option (Json × List Char)
  | 0, _ => none
  | fuel + 1, cs =>
    match cs with
    | '}' :: rest => some (.obj [], rest)
    | _ => parseMembers fuel [] cs

/-- Parse the members of an object, starting at a key. -/
def parseMembers : Nat → List (String × Json) → List Char → Option (Json × List Char)
  | 0, _, _ => none
  | fuel + 1, acc, cs =>
    match cs with
    | '"' :: rest =>
      match parseJStringAux [] rest with
      | none => none
      | some (k, r1) =>
        match skipWs r1 with
        | ':' :: r2 =>
          match parseVal fuel (skipWs r2) with
          | none => none
          | some (v, r3) =>
            match skipWs r3 with
            | ',' :: r4 => parseMembers fuel (acc ++ [(k, v)]) (skipWs r4)
            | '}' :: r4 => some (.obj (acc ++ [(k, v)]), r4)
            | _ => none
        | _ => none
    | _ => none

/-- Parse an array body, the opening bracket and following whitespace already
consumed. -/
def parseArrBody : Nat → List Char → Option (Json × List Char)
  | 0, _ => none
  | fuel + 1, cs =>
    match cs with
    | ']' :: rest => some (.arr [], rest)
    | _ => parseElems fuel [] cs

/-- Parse the elements of an array, starting at a value. -/
def parseElems : Nat → List Json → List Char → Option (Json × List Char)
  | 0, _, _ => none
  | fuel + 1, acc, cs =>
    match parseVal fuel cs with
    | none => none
    | some (v, r1) =>
      match skipWs r1 with
      | ',' :: r2 => parseElems fuel (acc ++ [v]) (skipWs r2)
      | ']' :: r2 => some (.arr (acc ++ [v]), r2)
      | _ => none

end

/-- Python json.loads, returning none where it would raise JSONDecodeError.
Faithful on the integer-numeral subset of JSON (see parseVal and
parseJNum). -/
def jsonParse (s : String) : Option Json :=
  match parseVal (s.length + 1) (skipWs s.data) with
  | some (j, rest) => if skipWs rest = [] then some j else none
  | none => none

/-! Models of the regular-expression searches used by the extraction
chains. -/

/-- Whitespace matched by the regex class backslash-s. -/
def reWs (c : Char) : Bool :=
  c == ' ' || c == '\t' || c == '\n' || c == '\r' || c == '\x0b' || c == '\x0c'

/-- The opening fence of a json-tagged code block. -/
def fenceJsonOpen : List Char := "```json".data

/-- A bare code fence. -/
def fenceOpen : List Char := "```".data

/-- Whether a closing fence follows, after optional whitespace. -/
def closeFenceFollows : List Char → Bool
  | [] => false
  | c :: rest =>
    if fenceOpen.isPrefixOf (c :: rest) then true
    else if reWs c then closeFenceFollows rest
    else false

/-- Shortest lazy brace group: scan for the first closing brace that is
followed, after optional whitespace, by a closing fence; returns the group
content including that closing brace. -/
def lazyBraceGroup (acc : List Char) : List Char → Option (List Char)
  | [] => none
  | c :: rest =>
    if c = '}' ∧ closeFenceFollows rest then some (acc.reverse ++ ['}'])
    else lazyBraceGroup (c :: acc) rest

/-- Attempt a fenced match right after an opener: skip whitespace, require an
opening brace, then take the shortest brace group followed by a closing
fence. -/
def tryFenceAt (cs : List Char) : Option (List Char) :=
  match cs.dropWhile reWs with
  | '{' :: rest => (lazyBraceGroup [] rest).map (fun g => '{' :: g)
  | _ => none

/-- Leftmost fenced match: models re.search with DOTALL of an opener fence,
optional whitespace, a lazily matched brace group, optional whitespace and a
closing fence, returning the brace group. -/
def fencedMatchGo (opener : List Char) : List Char → Option String
  | [] => none
  | c :: rest =>
    if opener.isPrefixOf (c :: rest) then
      match tryFenceAt ((c :: rest).drop opener.length) with
      | some g => some (String.mk g)
      | none => fencedMatchGo opener rest
    else fencedMatchGo opener rest

/-- Search for a json-tagged fenced block (step 3 of both chains). -/
def fencedJsonMatch (s : String) : Option String :=
  fencedMatchGo fenceJsonOpen s.data

/-- Search for any fenced block (step 4 of the app chain). -/
def fencedAnyMatch (s : String) : Option String :=
  fencedMatchGo fenceOpen s.data

/-- Index of the first occurrence of a character. -/
def firstIdx (c : Char) (cs : List Char) : Option Nat := findSubIdx [c] cs

/-- Index of the last occurrence of a character. -/
def lastIdx (c : Char) (cs : List Char) : Option Nat :=
  (findSubIdx [c] cs.reverse).map (fun i => cs.length - 1 - i)

/-- Models the greedy DOTALL search for a brace span (pipeline.py line 187,
slide_explainer.py line 218): the span from the first opening brace to the
last closing brace, provided the latter comes after the former; no match
otherwise (a closing brace after some opening brace would also lie after the
first one). -/
def braceSpanMatch (s : String) : Option String :=
  let cs := s.data
  match firstIdx '{' cs, lastIdx '}' cs with
  | some i, some j =>
    if i < j then some (String.mk ((cs.drop i).take (j + 1 - i))) else none
  | _, _ => none

/-- The opening of a double-brace template echo. -/
def dBraceOpen : List Char := ['{', '{']

/-- The closing of a double-brace template echo. -/
def dBraceClose : List Char := ['}', '}']

/-- Models re.sub removing lazily matched double-brace spans
(slide_explainer.py line 226): repeatedly delete, left to right and
non-overlapping, each double-brace opening together with the shortest stretch
reaching a double-brace closing. -/
def stripDoubleBraceGo : Nat → List Char → List Char → List Char
  | 0, acc, cs => acc.reverse ++ cs
  | _ + 1, acc, [] => acc.reverse
  | fuel + 1, acc, c :: rest =>
    if dBraceOpen.isPrefixOf (c :: rest) then
      match findSubIdx dBraceClose (rest.drop 1) with
      | some i => stripDoubleBraceGo fuel acc ((rest.drop 1).drop (i + 2))
      | none => stripDoubleBraceGo fuel (c :: acc) rest
    else stripDoubleBraceGo fuel (c :: acc) rest

/-- String version of the double-brace removal. -/
def stripDoubleBrace (s : String) : String :=
  String.mk (stripDoubleBraceGo s.data.length [] s.data)

/-! Python object-protocol helpers on decoded JSON values. -/

/-- Python x.get(k, d): succeeds on dicts, raises AttributeError otherwise
(no other decoded JSON value has a get method). -/
def pyGet (j : Json) (k : String) (d : Json) : Except String Json :=
  match j with
  | .obj kvs => .ok (jget kvs k d)
  | _ => .error "AttributeError: get"

/-- Python k in x on a decoded JSON value: key membership for dicts,
substring test for strings, elementwise equality for lists; TypeError
otherwise. -/
def pyIn (k : String) (j : Json) : Except String Bool :=
  match j with
  | .obj kvs => .ok (hasKey kvs k)
  | .str s => .ok (containsSub k.data s.data)
  | .arr xs => .ok (xs.contains (.str k))
  | _ => .error "TypeError: argument not iterable"

/-- Python iteration for x in j: lists yield their elements, strings their
characters, dicts their keys; other values raise TypeError. -/
def pyIter (j : Json) : Except String (List Json) :=
  match j with
  | .arr xs => .ok xs
  | .str s => .ok (s.data.map (fun c => Json.str c.toString))
  | .obj kvs => .ok (kvs.map (fun p => Json.str p.1))
  | _ => .error "TypeError: not iterable"

/-- Python v.strip() on a decoded JSON value: AttributeError unless v is a
string. -/
def pyStripJ (j : Json) : Except String String :=
  match j with
  | .str s => .ok (pyStrip s)
  | _ => .error "AttributeError: strip"

/-- Python " ".join on decoded JSON elements: TypeError on a non-string
element. -/
def pyJoinSpaceGo : List Json → Except String (List String)
  | [] => .ok []
  | .str s :: rest => (pyJoinSpaceGo rest).map (fun t => s :: t)
  | _ :: _ => .error "TypeError: join"

/-- Python " ".join(xs). -/
def pyJoinSpace (xs : List Json) : Except String String :=
  (pyJoinSpaceGo xs).map (String.intercalate " ")

/-! The worker per-slide analysis: pipeline.py explain_slide. -/

/-- The worker extraction chain (pipeline.py lines 177-191): strip, try
json.loads, else a json-tagged fenced block, else a greedy brace span. An
inner json.loads failure propagates (it is caught only by the outer handler
of explain_slide); with no candidate at all a ValueError is raised. -/
def workerExtractJson (content : String) : Except String Json :=
  let c := pyStrip content
  match jsonParse c with
  | some j => .ok j
  | none =>
    match fencedJsonMatch c with
    | some g =>
      match jsonParse g with
      | some j => .ok j
      | none => .error "JSONDecodeError"
    | none =>
      match braceSpanMatch c with
      | some g =>
        match jsonParse g with
        | some j => .ok j
        | none => .error "JSONDecodeError"
      | none => .error "Could not parse JSON from response"

/-- The normalized record built by the worker (pipeline.py lines 194-201).
All six fields are always present on a success result. -/
structure WorkerExplanation where
  titulo : Json
  explicacion_didactica : Json
  puntos_clave : Json
  conexiones : Json
  resumen_corto : Json
  anki_cards : Json

/-- Worker normalization (pipeline.py lines 194-201): canonical keys with
defaults; explanation_data.get raises AttributeError when the parsed value
is not a dict. -/
def normalizeWorker (j : Json) (n : Nat) : Except String WorkerExplanation :=
  match j with
  | .obj kvs => .ok {
      titulo := jget kvs "titulo" (.str ("Slide " ++ toString n)),
      explicacion_didactica := jget kvs "explicacion_didactica" (.str ""),
      puntos_clave := pyOr (jget kvs "puntos_clave" (.arr [])) (.arr []),
      conexiones := jget kvs "conexiones" (.str ""),
      resumen_corto := jget kvs "resumen_corto" (.str ""),
      anki_cards := pyOr (jget kvs "anki_cards" (.arr [])) (.arr []) }
  | _ => .error "AttributeError: get"

/-- Result of analysing one slide: the two return shapes of pipeline.py
explain_slide, tagged by the success flag. -/
inductive WSlideResult where
  | ok (slide_number : Nat) (explanation : WorkerExplanation)
  | err (slide_number : Nat) (error : String)

/-- pipeline.py explain_slide: the model call and everything after it run in
one try block; any exception (transport failure, JSONDecodeError or
ValueError from extraction, AttributeError from normalization) is caught and
becomes a success false record. The model call is abstracted by its outcome:
the massaged response text, or the exception message. -/
def explainSlideW (modelCall : Except String String) (n : Nat) : WSlideResult :=
  match modelCall with
  | .error e => .err n e
  | .ok content =>
    match workerExtractJson content with
    | .error e => .err n e
    | .ok j =>
      match normalizeWorker j n with
      | .error e => .err n e
      | .ok r => .ok n r

/-! The summary artifact: pipeline.py generate_summary_json. -/

/-- One slide entry of the summary JSON. -/
structure SummarySlide where
  slide_number : Nat
  titulo : Json
  explicacion_didactica : Json
  puntos_clave : Json
  conexiones : Json
  resumen_corto : Json

/-- One flattened flashcard entry of the summary JSON. -/
structure SummaryCard where
  slide_number : Nat
  front : Json
  back : Json

/-- The summary JSON (pipeline.py lines 228-255). -/
structure Summary where
  slides : List SummarySlide
  total_slides : Nat
  anki_cards : List SummaryCard

/-- The slide entry built for a successful slide (lines 237-244). -/
def summarySlideOf (n : Nat) (r : WorkerExplanation) : SummarySlide :=
  { slide_number := n, titulo := r.titulo,
    explicacion_didactica := r.explicacion_didactica,
    puntos_clave := r.puntos_clave, conexiones := r.conexiones,
    resumen_corto := r.resumen_corto }

/-- The flashcard entries collected from one slide's cards (lines 247-253);
card.get raises AttributeError on a non-dict entry. -/
def summaryCardsOf (n : Nat) : List Json → Except String (List SummaryCard)
  | [] => .ok []
  | c :: rest => do
    let f ← pyGet c "pregunta" (.str "")
    let b ← pyGet c "respuesta" (.str "")
    let tail ← summaryCardsOf n rest
    pure ({ slide_number := n, front := f, back := b } :: tail)

/-- The slide and card lists accumulated by the loop of
generate_summary_json: failure records are skipped entirely. -/
def summaryParts : List WSlideResult → Except String (List SummarySlide × List SummaryCard)
  | [] => .ok ([], [])
  | .err _ _ :: rest => summaryParts rest
  | .ok n r :: rest => do
    let cards ← pyIter r.anki_cards
    let cs ← summaryCardsOf n cards
    let (ss, acc) ← summaryParts rest
    pure (summarySlideOf n r :: ss, cs ++ acc)

/-- pipeline.py generate_summary_json: total_slides counts every entry,
successful or not; slides and flashcards come from successful entries
only. -/
def generateSummaryJson (exps : List WSlideResult) : Except String Summary :=
  match summaryParts exps with
  | .error e => .error e
  | .ok (ss, cs) =>
    .ok { slides := ss, total_slides := exps.length, anki_cards := cs }

/-! The flashcard artifact: pipeline.py generate_anki_package. -/

/-- One note of the generated package: question, answer, source fields. -/
structure AnkiNote where
  question : String
  answer : String
  source : String

/-- The generated package: fixed model and deck identifiers, deck name, and
notes in insertion order. The genanki writer is a black box; this structure
is what generate_anki_package determines. -/
structure AnkiPackage where
  modelId : Nat
  deckId : Nat
  deckName : String
  notes : List AnkiNote

/-- Python str() of a decoded JSON value, as used in the f-string building a
source field. Container renderings are abbreviated (every title evaluated
here is a string, on which str is the identity). -/
def pyStr : Json → String
  | .null => "None"
  | .bool b => if b then "True" else "False"
  | .num n => toString n
  | .str s => s
  | .arr _ => "[...]"
  | .obj _ => "\x7b...\x7d"

/-- The source field of a note (pipeline.py line 443). -/
def noteSource (n : Nat) (titulo : Json) : String :=
  "Slide " ++ toString n ++ ": " ++ pyStr titulo

/-- The card loop of generate_anki_package (lines 435-445): keep dict
entries whose stripped question and answer are both non-empty; stripping a
non-string value raises AttributeError, aborting the whole build. -/
def ankiNotesOfCards (n : Nat) (titulo : Json) : List Json → Except String (List AnkiNote)
  | [] => .ok []
  | c :: rest =>
    match c with
    | .obj kvs => do
      let p ← pyStripJ (jget kvs "pregunta" (.str ""))
      let q ← pyStripJ (jget kvs "respuesta" (.str ""))
      let tail ← ankiNotesOfCards n titulo rest
      if p ≠ "" ∧ q ≠ "" then
        pure ({ question := p, answer := q, source := noteSource n titulo } :: tail)
      else pure tail
    | _ => ankiNotesOfCards n titulo rest

/-- The slide loop of generate_anki_package (lines 428-445): failure records
contribute nothing. -/
def ankiNotesOf : List WSlideResult → Except String (List AnkiNote)
  | [] => .ok []
  | .err _ _ :: rest => ankiNotesOf rest
  | .ok n r :: rest => do
    let cards ← pyIter r.anki_cards
    let ns ← ankiNotesOfCards n r.titulo cards
    let tail ← ankiNotesOf rest
    pure (ns ++ tail)

/-- pipeline.py generate_anki_package: fixed model id 1607392319, deck id
2059400110, deck name Lecture Notes, and one note per valid card of each
successful slide. -/
def generateAnkiPackage (exps : List WSlideResult) : Except String AnkiPackage :=
  match ankiNotesOf exps with
  | .error e => .error e
  | .ok ns =>
    .ok { modelId := 1607392319, deckId := 2059400110,
          deckName := "Lecture Notes", notes := ns }

/-! The app-variant chain and normalization: slide_explainer.py. -/

/-- Step 6 fallback object of extract_json_safe (slide_explainer.py lines
226-233): strip double-brace template echoes and package the remaining text;
all five canonical keys are present in the result. -/
def appFallbackObj (t : String) (n : Nat) : Json :=
  let cleaned := pyStrip (stripDoubleBrace t)
  .obj [("titulo", .str ("Slide " ++ toString n)),
        ("explicacion_didactica", .str (if cleaned = "" then t else cleaned)),
        ("puntos_clave", .arr []),
        ("conexiones", .str ""),
        ("resumen_corto", .str "")]

/-- extract_json_safe of slide_explainer.py (lines 175-233): the six-step
recovery chain. Unlike the worker chain, every step's parse failure is
caught locally and the next step is tried; step 6 always returns an object,
so this function never raises. -/
def appExtractJsonSafe (s0 : String) (n : Nat) : Json :=
  let t := pyStrip s0
  let step2 : Option Json :=
    if "\"".data.isPrefixOf t.data then
      match jsonParse ("\x7b" ++ t) with
      | some j => some j
      | none =>
        let cleaned := pyLStripChars t ['\n', ' ', '"']
        if cleaned.data.contains ':' then jsonParse ("\x7b\"" ++ cleaned) else none
    else none
  match jsonParse t with
  | some j => j
  | none =>
    match step2 with
    | some j => j
    | none =>
      match (fencedJsonMatch t).bind jsonParse with
      | some j => j
      | none =>
        match (fencedAnyMatch t).bind jsonParse with
        | some j => j
        | none =>
          match (braceSpanMatch t).bind jsonParse with
          | some j => j
          | none => appFallbackObj t n

/-- The five canonical keys tested at slide_explainer.py line 240. -/
def canonicalKeys : List String :=
  ["titulo", "explicacion_didactica", "puntos_clave", "conexiones", "resumen_corto"]

/-- all(k in x for k in ks): short-circuit conjunction through Python
membership, which can itself raise TypeError. -/
def pyAllIn (ks : List String) (j : Json) : Except String Bool :=
  match ks with
  | [] => .ok true
  | k :: rest =>
    match pyIn k j with
    | .error e => .error e
    | .ok b => if b then pyAllIn rest j else .ok false

/-- The app explanation record (slide_explainer.py lines 241-276): five
canonical fields; this variant has no flashcard field. -/
structure AppExplanation where
  titulo : Json
  explicacion_didactica : Json
  puntos_clave : Json
  conexiones : Json
  resumen_corto : Json

/-- The concatenation branch of the legacy fallback (slide_explainer.py
lines 261-268): a part from a non-empty list of key points, a non-blank
string context (stripped), a part from a non-empty list of insights; joined
with spaces after dropping empty parts, then stripped. -/
def legacyPartsJoin (contenido contexto insights : Json) : Except String String := do
  let p1 ← match contenido with
    | .arr xs => if xs.isEmpty then pure ([] : List String) else (pyJoinSpace xs).map (fun s => [s])
    | _ => pure ([] : List String)
  let p2 : List String := match contexto with
    | .str s => if pyStrip s ≠ "" then [pyStrip s] else []
    | _ => []
  let p3 ← match insights with
    | .arr xs => if xs.isEmpty then pure ([] : List String) else (pyJoinSpace xs).map (fun s => [s])
    | _ => pure ([] : List String)
  pure (pyStrip (String.intercalate " " ((p1 ++ p2 ++ p3).filter (fun p => p ≠ ""))))

/-- The didactic-explanation choice of the legacy fallback
(slide_explainer.py lines 257-268): the stripped resumen when it is a
non-blank string, the joined parts otherwise. -/
def legacyExplicacion (resumen contenido contexto insights : Json) :
    Except String String :=
  match resumen with
  | .str rs =>
    if pyStrip rs ≠ "" then pure (pyStrip rs)
    else legacyPartsJoin contenido contexto insights
  | _ => legacyPartsJoin contenido contexto insights

/-- The legacy-schema fallback of slide_explainer.py (lines 248-276). -/
def appLegacyNormalize (j : Json) (n : Nat) : Except String AppExplanation := do
  let titulo_old ← pyGet j "titulo" (.str ("Slide " ++ toString n))
  let contenido_old ← pyGet j "contenido_clave" (.arr [])
  let contexto_old ← pyGet j "contexto" (.str "")
  let insights_old ← pyGet j "insights" (.arr [])
  let resumen_old ← pyGet j "resumen" (.str "")
  let explicacion ← legacyExplicacion resumen_old contenido_old contexto_old insights_old
  pure {
    titulo := titulo_old,
    explicacion_didactica :=
      .str (if explicacion ≠ "" then explicacion else "Explicación generada automáticamente."),
    puntos_clave := (match contenido_old with | .arr xs => .arr xs | _ => .arr []),
    conexiones := (match contexto_old with | .str s => .str s | _ => .str ""),
    resumen_corto := (match resumen_old with | .str s => .str s | _ => .str "") }

/-- Schema normalization of slide_explainer.py explain_slide (lines
240-276): verbatim canonical mapping when all five canonical keys are
present, legacy synthesis otherwise. -/
def appNormalize (j : Json) (n : Nat) : Except String AppExplanation := do
  let all5 ← pyAllIn canonicalKeys j
  if all5 then do
    let t ← pyGet j "titulo" (.str "")
    let e ← pyGet j "explicacion_didactica" (.str "")
    let p ← pyGet j "puntos_clave" (.arr [])
    let c ← pyGet j "conexiones" (.str "")
    let r ← pyGet j "resumen_corto" (.str "")
    pure { titulo := t, explicacion_didactica := e,
           puntos_clave := pyOr p (.arr []), conexiones := c, resumen_corto := r }
  else appLegacyNormalize j n

/-! SHA-256 and HMAC, as used by callback.py through hashlib and hmac.
Bytes are Nat values below 256; words are Nat values below 2^32. -/

/-- Truncate to 32 bits. -/
def m32 (x : Nat) : Nat := x % 4294967296

/-- 32-bit addition. -/
def add32 (a b : Nat) : Nat := m32 (a + b)

/-- 32-bit right rotation. -/
def rotr (x n : Nat) : Nat := m32 ((x >>> n) ||| (x <<< (32 - n)))

/-- SHA-256 big sigma 0. -/
def bSig0 (x : Nat) : Nat := (rotr x 2) ^^^ (rotr x 13) ^^^ (rotr x 22)

/-- SHA-256 big sigma 1. -/
def bSig1 (x : Nat) : Nat := (rotr x 6) ^^^ (rotr x 11) ^^^ (rotr x 25)

/-- SHA-256 small sigma 0. -/
def sSig0 (x : Nat) : Nat := (rotr x 7) ^^^ (rotr x 18) ^^^ (x >>> 3)

/-- SHA-256 small sigma 1. -/
def sSig1 (x : Nat) : Nat := (rotr x 17) ^^^ (rotr x 19) ^^^ (x >>> 10)

/-- SHA-256 choose function; complement within 32 bits. -/
def chF (x y z : Nat) : Nat := (x &&& y) ^^^ ((x ^^^ 4294967295) &&& z)

/-- SHA-256 majority function. -/
def majF (x y z : Nat) : Nat := (x &&& y) ^^^ (x &&& z) ^^^ (y &&& z)

/-- The 64 SHA-256 round constants. -/
def sha256K : List Nat :=
  [1116352408, 1899447441, 3049323471, 3921009573, 961987163,
   1508970993, 2453635748, 2870763221, 3624381080, 310598401,
   607225278, 1426881987, 1925078388, 2162078206, 2614888103,
   3248222580, 3835390401, 4022224774, 264347078, 604807628,
   770255983, 1249150122, 1555081692, 1996064986, 2554220882,
   2821834349, 2952996808, 3210313671, 3336571891, 3584528711,
   113926993, 338241895, 666307205, 773529912, 1294757372,
   1396182291, 1695183700, 1986661051, 2177026350, 2456956037,
   2730485921, 2820302411, 3259730800, 3345764771, 3516065817,
   3600352804, 4094571909, 275423344, 430227734, 506948616,
   659060556, 883997877, 958139571, 1322822218, 1537002063,
   1747873779, 1955562222, 2024104815, 2227730452, 2361852424,
   2428436474, 2756734187, 3204031479, 3329325298]

/-- The SHA-256 initial hash values. -/
def sha256H0 : List Nat :=
  [1779033703, 3144134277, 1013904242, 2773480762,
   1359893119, 2600822924, 528734635, 1541459225]

/-- n as w big-endian bytes. -/
def beBytes (w n : Nat) : List Nat :=
  (List.range w).map (fun i => (n >>> (8 * (w - 1 - i))) % 256)

/-- SHA-256 message padding: a 0x80 byte, zeros to 56 mod 64, then the bit
length as eight big-endian bytes. -/
def sha256Pad (msg : List Nat) : List Nat :=
  let L := msg.length
  msg ++ [0x80] ++ List.replicate ((119 - L % 64) % 64) 0 ++ beBytes 8 (8 * L)

/-- Group bytes into big-endian 32-bit words. -/
def toWords : List Nat → List Nat
  | b0 :: b1 :: b2 :: b3 :: rest =>
    (((b0 * 256 + b1) * 256 + b2) * 256 + b3) :: toWords rest
  | _ => []

/-- Split a word list into 16-word blocks (fuelled by the list length). -/
def chunk16Go : Nat → List Nat → List (List Nat)
  | 0, _ => []
  | _ + 1, [] => []
  | fuel + 1, ws => ws.take 16 :: chunk16Go fuel (ws.drop 16)

/-- Split into 16-word blocks. -/
def chunk16 (ws : List Nat) : List (List Nat) := chunk16Go ws.length ws

/-- Extend a 16-word block to the 64-entry message schedule. -/
def sha256Schedule (block : List Nat) : Array Nat :=
  (List.range 48).foldl
    (fun w i =>
      let t := i + 16
      w.push (add32 (add32 (sSig1 (w.getD (t - 2) 0)) (w.getD (t - 7) 0))
                    (add32 (sSig0 (w.getD (t - 15) 0)) (w.getD (t - 16) 0))))
    block.toArray

/-- The eight working variables of the compression function. -/
structure Sha256St where
  a : Nat
  b : Nat
  c : Nat
  d : Nat
  e : Nat
  f : Nat
  g : Nat
  h : Nat

/-- One round of the compression function. -/
def sha256Round (s : Sha256St) (ki wi : Nat) : Sha256St :=
  let t1 := add32 (add32 (add32 s.h (bSig1 s.e)) (add32 (chF s.e s.f s.g) ki)) wi
  let t2 := add32 (bSig0 s.a) (majF s.a s.b s.c)
  { a := add32 t1 t2, b := s.a, c := s.b, d := s.c,
    e := add32 s.d t1, f := s.e, g := s.f, h := s.g }

/-- Compress one block into the chaining state. -/
def sha256Compress (hs : List Nat) (block : List Nat) : List Nat :=
  let w := sha256Schedule block
  let s0 : Sha256St :=
    { a := hs.getD 0 0, b := hs.getD 1 0, c := hs.getD 2 0, d := hs.getD 3 0,
      e := hs.getD 4 0, f := hs.getD 5 0, g := hs.getD 6 0, h := hs.getD 7 0 }
  let sf := (List.range 64).foldl
    (fun s i => sha256Round s (sha256K.getD i 0) (w.getD i 0)) s0
  [add32 (hs.getD 0 0) sf.a, add32 (hs.getD 1 0) sf.b,
   add32 (hs.getD 2 0) sf.c, add32 (hs.getD 3 0) sf.d,
   add32 (hs.getD 4 0) sf.e, add32 (hs.getD 5 0) sf.f,
   add32 (hs.getD 6 0) sf.g, add32 (hs.getD 7 0) sf.h]

/-- SHA-256 digest of a byte message, as 32 bytes. -/
def sha256 (msg : List Nat) : List Nat :=
  ((chunk16 (toWords (sha256Pad msg))).foldl sha256Compress sha256H0).foldr
    (fun w acc => beBytes 4 w ++ acc) []

/-- Lowercase hex digit. -/
def hexChar (n : Nat) : Char :=
  if n < 10 then Char.ofNat (48 + n) else Char.ofNat (87 + n)

/-- Lowercase hex rendering of one byte. -/
def hexByte (b : Nat) : String := String.mk [hexChar (b / 16 % 16), hexChar (b % 16)]

/-- Lowercase hex rendering of a byte list, as hexdigest produces. -/
def hexOfBytes (bs : List Nat) : String := String.join (bs.map hexByte)

/-- RFC 2104 HMAC-SHA256 with the 64-byte block size, as Python hmac
computes it. -/
def hmacSha256 (key msg : List Nat) : List Nat :=
  let k0 := if 64 < key.length then sha256 key else key
  let k := k0 ++ List.replicate (64 - k0.length) 0
  sha256 ((k.map (fun b => b ^^^ 0x5c)) ++ sha256 ((k.map (fun b => b ^^^ 0x36)) ++ msg))

/-- UTF-8 encoding of one character. -/
def utf8Char (c : Char) : List Nat :=
  let n := c.toNat
  if n < 0x80 then [n]
  else if n < 0x800 then [0xc0 + n / 64, 0x80 + n % 64]
  else if n < 0x10000 then [0xe0 + n / 4096, 0x80 + (n / 64) % 64, 0x80 + n % 64]
  else [0xf0 + n / 262144, 0x80 + (n / 4096) % 64, 0x80 + (n / 64) % 64, 0x80 + n % 64]

/-- UTF-8 encoding of a string, as str.encode produces. -/
def utf8Bytes (s : String) : List Nat :=
  s.data.foldr (fun c acc => utf8Char c ++ acc) []

/-- Four-digit lowercase hex rendering. -/
def hex4 (n : Nat) : String :=
  String.mk [hexChar (n / 4096 % 16), hexChar (n / 256 % 16),
             hexChar (n / 16 % 16), hexChar (n % 16)]

/-- json.dumps escaping of one character with the default ensure_ascii:
printable ASCII other than quote and backslash stays literal, everything
else is escaped (astral characters as a surrogate pair). -/
def dumpEscapeChar (c : Char) : String :=
  if c = '"' then "\\\""
  else if c = '\\' then "\\\\"
  else if c = '\n' then "\\n"
  else if c = '\r' then "\\r"
  else if c = '\t' then "\\t"
  else if c = '\x08' then "\\b"
  else if c = '\x0c' then "\\f"
  else if c.toNat < 0x20 then "\\u" ++ hex4 c.toNat
  else if c.toNat < 0x7f then String.singleton c
  else if c.toNat < 0x10000 then "\\u" ++ hex4 c.toNat
  else
    let v := c.toNat - 0x10000
    "\\u" ++ hex4 (0xd800 + v / 1024) ++ "\\u" ++ hex4 (0xdc00 + v % 1024)

/-- json.dumps rendering of a string literal. -/
def dumpString (s : String) : String :=
  "\"" ++ String.join (s.data.map dumpEscapeChar) ++ "\""

mutual

/-- json.dumps with its default separators (a comma-space between items, a
colon-space after keys) and default ensure_ascii, as callback.py uses it at
line 78. -/
def pyJsonDumps : Json → String
  | .null => "null"
  | .bool b => if b then "true" else "false"
  | .num n => toString n
  | .str s => dumpString s
  | .arr xs => "[" ++ pyDumpsList xs ++ "]"
  | .obj kvs => "\x7b" ++ pyDumpsKvs kvs ++ "\x7d"

/-- Comma-space separated renderings of array elements. -/
def pyDumpsList : List Json → String
  | [] => ""
  | [x] => pyJsonDumps x
  | x :: rest => pyJsonDumps x ++ ", " ++ pyDumpsList rest

/-- Comma-space separated renderings of object members. -/
def pyDumpsKvs : List (String × Json) → String
  | [] => ""
  | [(k, v)] => dumpString k ++ ": " ++ pyJsonDumps v
  | (k, v) :: rest => dumpString k ++ ": " ++ pyJsonDumps v ++ ", " ++ pyDumpsKvs rest

end

/-! The callback notifier: callback.py. -/

/-- Outcome of one delivery attempt of the callback POST: a response with a
status code, or a transport exception. -/
inductive AttemptOutcome where
  | status (code : Nat)
  | exn (msg : String)

/-- Whether an attempt ends the retry loop: only a 200 response does; any
other status and any transport exception count as failures. -/
def attemptSucceeds : AttemptOutcome → Bool
  | .status c => c == 200
  | .exn _ => false

/-- Trace of one run of the retry loop of send_callback: the number of
delivery attempts made, the seconds slept between attempts in order, and
whether the function returned or raised. -/
structure CallbackRun where
  attemptsMade : Nat
  sleeps : List Nat
  result : Except String Unit

/-- The retry loop of send_callback (callback.py lines 93-123): a 200
response returns at once; otherwise, after an attempt with index below two,
the loop sleeps two to the power of the index seconds and retries;
exhaustion raises. The outcome of the attempt with index i is given by the
oracle. -/
def runAttempts (attempts : Nat → AttemptOutcome) : Nat → Nat → CallbackRun
  | 0, _ =>
    { attemptsMade := 0, sleeps := [], result := .error "Callback failed after retries" }
  | remaining + 1, i =>
    if attemptSucceeds (attempts i) then
      { attemptsMade := 1, sleeps := [], result := .ok () }
    else
      let rest := runAttempts attempts remaining (i + 1)
      { attemptsMade := rest.attemptsMade + 1,
        sleeps := (if i < 2 then [2 ^ i] else []) ++ rest.sleeps,
        result := rest.result }

/-- send_callback runs the attempt loop over range(3), starting at index
zero. -/
def sendCallbackLoop (attempts : Nat → AttemptOutcome) : CallbackRun :=
  runAttempts attempts 3 0

/-- The callback payload object (callback.py lines 67-76): jobId and status
always; outputs and error only when present and truthy. -/
def callbackPayload (jobId status : String) (outputs error : Option Json) : Json :=
  .obj ([("jobId", .str jobId), ("status", .str status)]
    ++ (match outputs with
        | some o => if o.truthy then [("outputs", o)] else []
        | none => [])
    ++ (match error with
        | some e => if e.truthy then [("error", e)] else []
        | none => []))

/-- The serialized payload bytes (callback.py lines 78-79): json.dumps, then
utf-8. -/
def callbackPayloadBytes (jobId status : String) (outputs error : Option Json) : List Nat :=
  utf8Bytes (pyJsonDumps (callbackPayload jobId status outputs error))

/-- The signature function of callback.py (lines 19-37): hex-encoded
HMAC-SHA256 of the payload bytes keyed by the utf-8 encoded secret; raises
when the secret is unset. -/
def computeSignature (secret : String) (payloadBytes : List Nat) : Except String String :=
  if secret = "" then .error "WORKER_CALLBACK_SECRET not set"
  else .ok (hexOfBytes (hmacSha256 (utf8Bytes secret) payloadBytes))

/-- An HTTP request as assembled by send_callback. -/
structure HttpRequest where
  url : String
  body : List Nat
  headers : List (String × String)

/-- Request assembly of send_callback (callback.py lines 58-98):
configuration checks, payload serialization, signature, headers. The body
posted on every attempt is the same byte list that was signed. -/
def buildCallbackRequest (url secret jobId status : String)
    (outputs error : Option Json) : Except String HttpRequest :=
  if url = "" then .error "WORKER_CALLBACK_URL not set"
  else if secret = "" then .error "WORKER_CALLBACK_SECRET not set"
  else
    let pb := callbackPayloadBytes jobId status outputs error
    match computeSignature secret pb with
    | .error e => .error e
    | .ok sig =>
      .ok { url := url, body := pb,
            headers := [("Content-Type", "application/json"),
                        ("X-Worker-Signature", sig)] }

/-! The job acceptance endpoint: main.py. -/

/-- A raw POST /process body: each field present or absent. Values are taken
as strings; a non-string value is likewise rejected by request-model
validation. -/
structure RawProcessRequest where
  jobId : Option String
  s3Key : Option String
  email : Option String
  language : Option String

/-- The observable outcome of POST /process. -/
inductive EndpointResult where
  | validationError (status : Nat)
  | httpError (status : Nat) (detail : String)
  | accepted (status : Nat) (body : Json) (backgroundQueued : Bool)

/-- main.py process_endpoint (lines 101-136) with the framework semantics
around it: a missing required field is rejected by request-model validation
with status 422 before the handler runs; the handler rejects
present-but-empty fields with status 400 and no background task; otherwise
it queues the background task and returns the acceptance body. The route
declares no explicit status code, so the framework responds with its
default, status 200; the queued task runs only after the response is
sent. -/
def processEndpoint (r : RawProcessRequest) : EndpointResult :=
  match r.jobId, r.s3Key, r.email with
  | some j, some s, some e =>
    if j = "" ∨ s = "" ∨ e = "" then
      .httpError 400 "Missing required fields: jobId, s3Key, email"
    else
      .accepted 200
        (.obj [("jobId", .str j), ("status", .str "accepted"),
               ("message", .str "Processing started")]) true
  | _, _, _ => .validationError 422

/-! Slide extraction and pipeline orchestration: pipeline.py. -/

/-- pipeline.py extract_slides_from_pdf (lines 38-70), with the rasterizer
as a black box per the spec: parsing the bytes yields the page list, or
fails (fitz raising, re-raised by the except clause); each page is rendered
at the fixed matrix scale 300 over 72 and encoded to PNG bytes, in page
order. -/
def extractSlidesFromPdf {Page : Type}
    (parsePdf : List Nat → Option (List Page))
    (renderPng : Page → ℚ → List Nat)
    (pdf : List Nat) : Except String (List (List Nat)) :=
  match parsePdf pdf with
  | none => .error "ExtractionError"
  | some pages => .ok (pages.map (fun p => renderPng p (300 / 72)))

/-- The observable steps of one pipeline run, in order. -/
inductive PipelineEvent where
  | download
  | extract
  | analyze (n : Nat)
  | buildSummary
  | buildDocx
  | buildAnki
  | upload (key : String)
  | presign (key : String)
deriving DecidableEq

/-- The outputs returned by a successful pipeline run (pipeline.py lines
533-538). -/
structure PipelineOutputs where
  summary_json_url : String
  docx_url : String
  anki_url : String
  total_slides : Nat

/-- The external effects process_lecture depends on, as oracles: storage
download, PDF parse, rasterizer, per-slide model call, summary encoder
(json.dumps with indent), document writer, package writer, upload,
presign. -/
structure PipelineEnv (Page : Type) where
  download : Except String (List Nat)
  parsePdf : List Nat → Option (List Page)
  renderPng : Page → ℚ → List Nat
  modelCall : Nat → List Nat → Except String String
  encodeSummary : Summary → List Nat
  buildDocx : List WSlideResult → List (List Nat) → Except String (List Nat)
  writeApkg : AnkiPackage → Except String (List Nat)
  upload : String → List Nat → Except String Unit
  presign : String → Except String String

/-- The first events of every run: download then extract. -/
def preludeEvents : List PipelineEvent := [.download, .extract]

/-- pipeline.py process_lecture (lines 464-538): download, extract, guard
against zero slides, analyse each slide in increasing order, build the
summary, the document and the flashcard package, upload the three
artifacts, presign the three keys. Returns the outcome together with the
ordered trace of steps performed; an exception anywhere aborts the run at
that point. -/
def processLecture {Page : Type} (jobId : String) (env : PipelineEnv Page) :
    Except String PipelineOutputs × List PipelineEvent :=
  match env.download with
  | .error e => (.error e, [.download])
  | .ok pdfBytes =>
    match extractSlidesFromPdf env.parsePdf env.renderPng pdfBytes with
    | .error e => (.error e, preludeEvents)
    | .ok slides =>
      if slides.isEmpty then (.error "No slides extracted from PDF", preludeEvents)
      else
        let exps := (List.range slides.length).map
          (fun i => explainSlideW (env.modelCall (i + 1) (slides.getD i [])) (i + 1))
        let trace0 := preludeEvents
          ++ (List.range slides.length).map (fun i => PipelineEvent.analyze (i + 1))
        match generateSummaryJson exps with
        | .error e => (.error e, trace0 ++ [.buildSummary])
        | .ok summary =>
          match env.buildDocx exps slides with
          | .error e => (.error e, trace0 ++ [.buildSummary, .buildDocx])
          | .ok docxBytes =>
            match generateAnkiPackage exps with
            | .error e => (.error e, trace0 ++ [.buildSummary, .buildDocx, .buildAnki])
            | .ok pkg =>
              match env.writeApkg pkg with
              | .error e => (.error e, trace0 ++ [.buildSummary, .buildDocx, .buildAnki])
              | .ok ankiBytes =>
                let sKey := "outputs/" ++ jobId ++ "/summary.json"
                let dKey := "outputs/" ++ jobId ++ "/lecture.docx"
                let aKey := "outputs/" ++ jobId ++ "/lecture.apkg"
                let trace1 := trace0 ++ [.buildSummary, .buildDocx, .buildAnki]
                match env.upload sKey (env.encodeSummary summary) with
                | .error e => (.error e, trace1 ++ [.upload sKey])
                | .ok _ =>
                  match env.upload dKey docxBytes with
                  | .error e => (.error e, trace1 ++ [.upload sKey, .upload dKey])
                  | .ok _ =>
                    match env.upload aKey ankiBytes with
                    | .error e =>
                      (.error e, trace1 ++ [.upload sKey, .upload dKey, .upload aKey])
                    | .ok _ =>
                      let trace2 := trace1 ++ [.upload sKey, .upload dKey, .upload aKey]
                      match env.presign sKey with
                      | .error e => (.error e, trace2 ++ [.presign sKey])
                      | .ok sUrl =>
                        match env.presign dKey with
                        | .error e => (.error e, trace2 ++ [.presign sKey, .presign dKey])
                        | .ok dUrl =>
                          match env.presign aKey with
                          | .error e =>
                            (.error e, trace2 ++ [.presign sKey, .presign dKey, .presign aKey])
                          | .ok aUrl =>
                            (.ok { summary_json_url := sUrl, docx_url := dUrl,
                                   anki_url := aUrl, total_slides := slides.length },
                             trace2 ++ [.presign sKey, .presign dKey, .presign aKey])

/-- Whether a per-slide result carries the success flag. -/
def WSlideResult.isOk : WSlideResult → Bool
  | .ok _ _ => true
  | .err _ _ => false

/-- The slide number carried by a per-slide result. -/
def WSlideResult.slideNumber : WSlideResult → Nat
  | .ok n _ => n
  | .err n _ => n

/-- The callback dispatched by the background task. -/
inductive CallbackSent where
  | completed (outputs : PipelineOutputs)
  | failed (message : String) (code : String)

/-- main.py process_job_background (lines 41-73): run the pipeline and send
a success callback with its outputs, or a failure callback carrying the
exception message and the fixed code PROCESSING_ERROR. -/
def processJobBackground {Page : Type} (jobId : String) (env : PipelineEnv Page) :
    CallbackSent :=
  match (processLecture jobId env).1 with
  | .ok outputs => .completed outputs
  | .error e => .failed e "PROCESSING_ERROR"

/-- A concrete parsed response object with all five canonical keys present
and a null puntos_clave value. -/
def c8Kvs : List (String × Json) :=
  [("titulo", .str "t"), ("explicacion_didactica", .str "e"),
   ("puntos_clave", .null), ("conexiones", .str "c"),
   ("resumen_corto", .str "r")]

/-- The didactic explanation the legacy branch is stated to produce, given
the legacy resumen value and the joined concatenation pj of the legacy
parts: the stripped resumen when it is a non-blank string; otherwise pj, or
the fixed placeholder when pj is empty. -/
def legacyExplSpec (resumen : Json) (pj : String) : String :=
  match resumen with
  | .str rs =>
    if pyStrip rs = "" then
      (if pj = "" then "Explicación generada automáticamente." else pj)
    else pyStrip rs
  | _ => if pj = "" then "Explicación generada automáticamente." else pj

/-- The per-slide loop of process_lecture (pipeline.py lines 492-498): one
explain_slide result per slide, in increasing slide order, the model call
for slide number i abstracted as texts i. -/
def batchExplain (texts : Nat → Except String String) (N : Nat) : List WSlideResult :=
  (List.range N).map (fun i => explainSlideW (texts (i + 1)) (i + 1))

/-- A concrete explanation list: slide 1 succeeded with one valid card and
one non-dict card entry, slide 2 failed. -/
def c10Exps : List WSlideResult :=
  [.ok 1 { titulo := .str "T", explicacion_didactica := .str "",
           puntos_clave := .arr [], conexiones := .str "",
           resumen_corto := .str "",
           anki_cards := .arr [.obj [("pregunta", .str " q "), ("respuesta", .str "r")],
                               .str "bad"] },
   .err 2 "boom"]

/-! Theorems. -/

/-- Reduction of bind on an ok value of Except. -/
theorem bindOk {ε α β : Type} (a : α) (f : α → Except ε β) :
    (Except.ok a : Except ε α) >>= f = f a := rfl

/-- Reduction of bind on a pure value of Except. -/
theorem pureBind {ε α β : Type} (a : α) (f : α → Except ε β) :
    (pure a : Except ε α) >>= f = f a := rfl

/-- Reduction of bind on an error value of Except. -/
theorem errorBind {ε α β : Type} (e : ε) (f : α → Except ε β) :
    (Except.error e : Except ε α) >>= f = .error e := rfl

/-- Pure on Except is ok. -/
theorem pureEqOk {ε α : Type} (a : α) : (pure a : Except ε α) = Except.ok a := rfl

/-- Claim C1: when no delivery attempt of send_callback returns status 200
(every attempt yields a non-200 status or a transport exception), exactly 3
attempts are made, the loop sleeps 1 second after the first failed attempt
and 2 seconds after the second with no wait after the third, and the
function raises; conversely, the first attempt returning status 200 ends the
loop immediately, with no further attempts. -/
theorem C1_callback_retry (attempts : Nat → AttemptOutcome) :
    ((∀ i, i < 3 → attemptSucceeds (attempts i) = false) →
      sendCallbackLoop attempts =
        { attemptsMade := 3, sleeps := [1, 2],
          result := .error "Callback failed after retries" })
    ∧ (∀ k, k < 3 → (∀ i, i < k → attemptSucceeds (attempts i) = false) →
        attemptSucceeds (attempts k) = true →
        sendCallbackLoop attempts =
          { attemptsMade := k + 1, sleeps := (List.range k).map (fun i => 2 ^ i),
            result := .ok () }) := by
  constructor
  · intro h
    have h0 := h 0 (by norm_num)
    have h1 := h 1 (by norm_num)
    have h2 := h 2 (by norm_num)
    simp [sendCallbackLoop, runAttempts, h0, h1, h2]
  · intro k hk hprev hsucc
    interval_cases k
    · simp [sendCallbackLoop, runAttempts, hsucc]
    · have h0 := hprev 0 (by norm_num)
      simp [sendCallbackLoop, runAttempts, h0, hsucc, List.range_succ]
    · have h0 := hprev 0 (by norm_num)
      have h1 := hprev 1 (by norm_num)
      simp [sendCallbackLoop, runAttempts, h0, h1, hsucc, List.range_succ]

/-- Witness for C1: a run whose attempts all return status 500, and a run
whose second attempt returns status 200. -/
theorem C1_callback_retry_witness :
    sendCallbackLoop (fun _ => .status 500) =
      { attemptsMade := 3, sleeps := [1, 2],
        result := .error "Callback failed after retries" }
    ∧ sendCallbackLoop (fun i => if i == 1 then .status 200 else .exn "boom") =
      { attemptsMade := 2, sleeps := [1], result := .ok () } := by
  constructor
  · exact (C1_callback_retry (fun _ => .status 500)).1 (fun i _ => rfl)
  · have h := (C1_callback_retry (fun i => if i == 1 then .status 200 else .exn "boom")).2
      1 (by norm_num) (fun i hi => by interval_cases i; rfl) rfl
    simpa using h

/-- Claim C4: for every payload and non-empty shared secret, the signature
function returns the hex-encoded HMAC-SHA256 of the payload bytes keyed by
the utf-8 secret, deterministically, and send_callback posts exactly the
byte sequence it signed as the request body, with the signature in the
X-Worker-Signature header. -/
theorem C4_signature_request (url secret jobId status : String)
    (outputs err : Option Json) (hu : url ≠ "") (hs : secret ≠ "") :
    ∃ req, buildCallbackRequest url secret jobId status outputs err = .ok req ∧
      req.body = callbackPayloadBytes jobId status outputs err ∧
      req.headers = [("Content-Type", "application/json"),
                     ("X-Worker-Signature",
                      hexOfBytes (hmacSha256 (utf8Bytes secret) req.body))] ∧
      computeSignature secret req.body =
        .ok (hexOfBytes (hmacSha256 (utf8Bytes secret) req.body)) ∧
      ∀ b : List Nat, computeSignature secret b = computeSignature secret b := by
  refine ⟨{ url := url, body := callbackPayloadBytes jobId status outputs err,
            headers := [("Content-Type", "application/json"),
                        ("X-Worker-Signature",
                         hexOfBytes (hmacSha256 (utf8Bytes secret)
                           (callbackPayloadBytes jobId status outputs err)))] },
          ?_, rfl, rfl, ?_, fun b => rfl⟩
  · simp [buildCallbackRequest, computeSignature, hu, hs]
  · simp [computeSignature, hs]

set_option maxRecDepth 100000

/-- Witness for C4, with the reference signature value computed
independently for the payload of jobId j1 and status completed under the
secret s3cr3t. -/
theorem C4_signature_request_witness :
    (∃ req, buildCallbackRequest "https://example.com/cb" "s3cr3t" "j1" "completed"
        none none = .ok req ∧
      req.body = callbackPayloadBytes "j1" "completed" none none ∧
      req.headers = [("Content-Type", "application/json"),
                     ("X-Worker-Signature",
                      hexOfBytes (hmacSha256 (utf8Bytes "s3cr3t") req.body))] ∧
      computeSignature "s3cr3t" req.body =
        .ok (hexOfBytes (hmacSha256 (utf8Bytes "s3cr3t") req.body)) ∧
      ∀ b : List Nat, computeSignature "s3cr3t" b = computeSignature "s3cr3t" b)
    ∧ computeSignature "s3cr3t" (callbackPayloadBytes "j1" "completed" none none) =
      .ok "03f7a92b74be926f13cff78be8778990cdc8d19bf071167e490629e13296fac1" :=
  ⟨C4_signature_request "https://example.com/cb" "s3cr3t" "j1" "completed" none none
    (by decide) (by decide), by rfl⟩

/-- Claim C5 (code behavior at the failing input): a request carrying all
three required fields is accepted with HTTP status 200, not 202 (the route
sets no explicit status code, so the framework default applies, although the
route's own docstring says 202); a request missing a required field is
rejected by request-model validation with status 422, not 400; a request
with a present-but-empty field gets the handler's 400 with no background
work. -/
theorem C5_endpoint_behavior :
    processEndpoint { jobId := some "j1", s3Key := some "uploads/a.pdf",
                      email := some "u@x.com", language := none } =
      .accepted 200 (.obj [("jobId", .str "j1"), ("status", .str "accepted"),
                           ("message", .str "Processing started")]) true
    ∧ processEndpoint { jobId := none, s3Key := some "uploads/a.pdf",
                        email := some "u@x.com", language := none } =
      .validationError 422
    ∧ processEndpoint { jobId := some "j1", s3Key := some "uploads/a.pdf",
                        email := some "", language := none } =
      .httpError 400 "Missing required fields: jobId, s3Key, email" :=
  ⟨by rfl, by rfl, by rfl⟩

/-- Claim C6: extraction of a parseable PDF with N pages, N at least 1,
yields exactly N PNG renderings at the fixed 300 over 72 scale, in strictly
increasing page order: entry i is the rendering of page i plus 1. -/
theorem C6_extract_roundtrip {Page : Type} (parsePdf : List Nat → Option (List Page))
    (renderPng : Page → ℚ → List Nat) (pdf : List Nat) (pages : List Page) (N : Nat)
    (hp : parsePdf pdf = some pages) (hlen : pages.length = N) (hpos : 1 ≤ N) :
    ∃ imgs, extractSlidesFromPdf parsePdf renderPng pdf = .ok imgs ∧
      imgs = pages.map (fun p => renderPng p (300 / 72)) ∧
      imgs.length = N ∧
      ∀ i, i < N → imgs[i]? = (pages[i]?).map (fun p => renderPng p (300 / 72)) := by
  subst hlen
  refine ⟨_, by simp [extractSlidesFromPdf, hp], rfl, by simp, ?_⟩
  intro i hi
  simp

/-- Witness for C6: a two-page document under concrete parse and render
oracles. -/
theorem C6_extract_roundtrip_witness :
    ∃ imgs, extractSlidesFromPdf (fun _ : List Nat => some [10, 20])
        (fun (p : Nat) _ => [p]) [0] = .ok imgs ∧
      imgs = [10, 20].map (fun p => [p]) ∧
      imgs.length = 2 ∧
      ∀ i, i < 2 → imgs[i]? = ([10, 20][i]?).map (fun p => [p]) :=
  C6_extract_roundtrip (fun _ => some [10, 20]) (fun p _ => [p]) [0] [10, 20] 2
    rfl rfl (by norm_num)

/-- Claim C7: when the downloaded input is not a parseable PDF, or parses to
zero pages, the pipeline fails during extraction: no slide analysis, no
artifact build, no upload and no presign is performed, and the background
task surfaces the failure through a failed callback with code
PROCESSING_ERROR. -/
theorem C7_extraction_aborts {Page : Type} (jobId : String) (env : PipelineEnv Page)
    (pdfBytes : List Nat) (hd : env.download = .ok pdfBytes)
    (hfail : env.parsePdf pdfBytes = none ∨ env.parsePdf pdfBytes = some ([] : List Page)) :
    ∃ e, processLecture jobId env = (.error e, preludeEvents) ∧
      processJobBackground jobId env = .failed e "PROCESSING_ERROR" ∧
      ∀ ev ∈ preludeEvents, (∀ n, ev ≠ .analyze n) ∧ ev ≠ .buildSummary ∧
        ev ≠ .buildDocx ∧ ev ≠ .buildAnki ∧ (∀ k, ev ≠ .upload k) ∧
        (∀ k, ev ≠ .presign k) := by
  have hev : ∀ ev ∈ preludeEvents, (∀ n, ev ≠ PipelineEvent.analyze n) ∧
      ev ≠ .buildSummary ∧ ev ≠ .buildDocx ∧ ev ≠ .buildAnki ∧
      (∀ k, ev ≠ .upload k) ∧ (∀ k, ev ≠ .presign k) := by
    intro ev hev
    fin_cases hev <;> simp [preludeEvents]
  rcases hfail with h | h
  · refine ⟨"ExtractionError", ?_, ?_, hev⟩
    · simp [processLecture, extractSlidesFromPdf, hd, h]
    · simp [processJobBackground, processLecture, extractSlidesFromPdf, hd, h]
  · refine ⟨"No slides extracted from PDF", ?_, ?_, hev⟩
    · simp [processLecture, extractSlidesFromPdf, hd, h]
    · simp [processJobBackground, processLecture, extractSlidesFromPdf, hd, h]

/-- Witness for C7: a concrete environment whose PDF parse fails. -/
theorem C7_extraction_aborts_witness :
    ∃ e, processLecture "j1"
        ({ download := .ok [], parsePdf := fun _ => none, renderPng := fun _ _ => [],
           modelCall := fun _ _ => .error "x", encodeSummary := fun _ => [],
           buildDocx := fun _ _ => .ok [], writeApkg := fun _ => .ok [],
           upload := fun _ _ => .ok (), presign := fun _ => .ok "u" } :
          PipelineEnv Nat) = (.error e, preludeEvents) ∧
      processJobBackground "j1"
        ({ download := .ok [], parsePdf := fun _ => none, renderPng := fun _ _ => [],
           modelCall := fun _ _ => .error "x", encodeSummary := fun _ => [],
           buildDocx := fun _ _ => .ok [], writeApkg := fun _ => .ok [],
           upload := fun _ _ => .ok (), presign := fun _ => .ok "u" } :
          PipelineEnv Nat) = .failed e "PROCESSING_ERROR" ∧
      ∀ ev ∈ preludeEvents, (∀ n, ev ≠ .analyze n) ∧ ev ≠ .buildSummary ∧
        ev ≠ .buildDocx ∧ ev ≠ .buildAnki ∧ (∀ k, ev ≠ .upload k) ∧
        (∀ k, ev ≠ .presign k) :=
  C7_extraction_aborts "j1" _ [] rfl (Or.inl rfl)

/-- Counterexample to claim C2: on the response text hello (no JSON, no
fenced block, no brace span) the worker's per-slide normalization raises a
ValueError rather than returning a record; explain_slide catches it and
returns a success false entry, so no ExplanationRecord is produced for that
slide. -/
theorem C2_counterexample :
    workerExtractJson "hello" = .error "Could not parse JSON from response"
    ∧ explainSlideW (.ok "hello") 1 = .err 1 "Could not parse JSON from response" :=
  ⟨by rfl, by rfl⟩

/-- Claim C2 as amended: the worker chain can raise, but explain_slide
contains every such exception as a success false record (it never
propagates); whenever the chain yields an object, the success record defines
all six canonical fields with placeholder defaults for missing keys; a
non-object parse makes normalization raise, again contained. In the app
variant, the last-resort fallback of extract_json_safe always produces an
object carrying all five canonical keys, whose normalization is a fully
populated five-field record (that variant has no flashcard field). -/
theorem C2_amended (mc : Except String String) (n : Nat) :
    (∀ e, mc = .error e → explainSlideW mc n = .err n e)
    ∧ (∀ s e, mc = .ok s → workerExtractJson s = .error e →
        explainSlideW mc n = .err n e)
    ∧ (∀ s kvs, mc = .ok s → workerExtractJson s = .ok (.obj kvs) →
        explainSlideW mc n = .ok n
          { titulo := jget kvs "titulo" (.str ("Slide " ++ toString n)),
            explicacion_didactica := jget kvs "explicacion_didactica" (.str ""),
            puntos_clave := pyOr (jget kvs "puntos_clave" (.arr [])) (.arr []),
            conexiones := jget kvs "conexiones" (.str ""),
            resumen_corto := jget kvs "resumen_corto" (.str ""),
            anki_cards := pyOr (jget kvs "anki_cards" (.arr [])) (.arr []) })
    ∧ (∀ s j, mc = .ok s → workerExtractJson s = .ok j → (∀ kvs, j ≠ .obj kvs) →
        explainSlideW mc n = .err n "AttributeError: get")
    ∧ (∀ t : String, pyAllIn canonicalKeys (appFallbackObj t n) = .ok true ∧
        ∃ r, appNormalize (appFallbackObj t n) n = .ok r ∧
          r.titulo = .str ("Slide " ++ toString n) ∧
          (∃ e, r.explicacion_didactica = .str e) ∧
          r.puntos_clave = .arr [] ∧ r.conexiones = .str "" ∧
          r.resumen_corto = .str "") := by
  refine ⟨?_, ?_, ?_, ?_, ?_⟩
  · intro e he; subst he; rfl
  · intro s e hmc hex; subst hmc; simp [explainSlideW, hex]
  · intro s kvs hmc hex; subst hmc; simp [explainSlideW, hex, normalizeWorker]
  · intro s j hmc hex hno; subst hmc
    simp only [explainSlideW, hex]
    cases j with
    | obj kvs => exact absurd rfl (hno kvs)
    | null => rfl
    | bool b => rfl
    | num m => rfl
    | str t => rfl
    | arr xs => rfl
  · intro t
    constructor
    · rfl
    · exact ⟨_, rfl, rfl, ⟨_, rfl⟩, rfl, rfl, rfl⟩

/-- Witness for C2 as amended: a parse success on a concrete response
object, and the fallback object for the text hello. -/
theorem C2_amended_witness :
    explainSlideW (.ok "\x7b\"titulo\": \"T\"\x7d") 1 = .ok 1
      { titulo := .str "T", explicacion_didactica := .str "",
        puntos_clave := .arr [], conexiones := .str "",
        resumen_corto := .str "", anki_cards := .arr [] }
    ∧ pyAllIn canonicalKeys (appFallbackObj "hello" 2) = .ok true := by
  constructor
  · exact (C2_amended (.ok "\x7b\"titulo\": \"T\"\x7d") 1).2.2.1
      "\x7b\"titulo\": \"T\"\x7d" [("titulo", Json.str "T")] rfl (by rfl)
  · exact ((C2_amended (.ok "") 2).2.2.2.2 "hello").1

/-- Counterexample to claim C8: a parsed object with all five canonical keys
present whose puntos_clave value is null; the value is not reproduced
verbatim, both normalizations coerce it to an empty list. -/
theorem C8_counterexample :
    hasKey c8Kvs "puntos_clave" = true
    ∧ jlookup c8Kvs "puntos_clave" = some Json.null
    ∧ appNormalize (.obj c8Kvs) 1 =
        .ok { titulo := .str "t", explicacion_didactica := .str "e",
              puntos_clave := .arr [], conexiones := .str "c",
              resumen_corto := .str "r" }
    ∧ normalizeWorker (.obj c8Kvs) 1 =
        .ok { titulo := .str "t", explicacion_didactica := .str "e",
              puntos_clave := .arr [], conexiones := .str "c",
              resumen_corto := .str "r", anki_cards := .arr [] }
    ∧ Json.arr [] ≠ Json.null :=
  ⟨rfl, rfl, by rfl, by rfl, fun h => Json.noConfusion h⟩

/-- Claim C8 as amended: with all five canonical keys present, both
normalizations reproduce titulo, explicacion_didactica, conexiones and
resumen_corto verbatim; puntos_clave (and, in the worker, anki_cards) is
reproduced verbatim only when truthy and is otherwise coerced to the empty
list; missing sub-fields of the record default to empty values. -/
theorem C8_amended (kvs : List (String × Json)) (n : Nat)
    (h5 : ∀ k ∈ canonicalKeys, hasKey kvs k = true) :
    (∃ r, appNormalize (.obj kvs) n = .ok r ∧
      (∀ v, jlookup kvs "titulo" = some v → r.titulo = v) ∧
      (∀ v, jlookup kvs "explicacion_didactica" = some v →
        r.explicacion_didactica = v) ∧
      (∀ v, jlookup kvs "conexiones" = some v → r.conexiones = v) ∧
      (∀ v, jlookup kvs "resumen_corto" = some v → r.resumen_corto = v) ∧
      (∀ v, jlookup kvs "puntos_clave" = some v →
        r.puntos_clave = if v.truthy then v else .arr []))
    ∧ (∃ r, normalizeWorker (.obj kvs) n = .ok r ∧
      (∀ v, jlookup kvs "titulo" = some v → r.titulo = v) ∧
      (∀ v, jlookup kvs "explicacion_didactica" = some v →
        r.explicacion_didactica = v) ∧
      (∀ v, jlookup kvs "conexiones" = some v → r.conexiones = v) ∧
      (∀ v, jlookup kvs "resumen_corto" = some v → r.resumen_corto = v) ∧
      (∀ v, jlookup kvs "puntos_clave" = some v →
        r.puntos_clave = if v.truthy then v else .arr []) ∧
      (∀ v, jlookup kvs "anki_cards" = some v →
        r.anki_cards = if v.truthy then v else .arr [])) := by
  have h1 := h5 "titulo" (by simp [canonicalKeys])
  have h2 := h5 "explicacion_didactica" (by simp [canonicalKeys])
  have h3 := h5 "puntos_clave" (by simp [canonicalKeys])
  have h4 := h5 "conexiones" (by simp [canonicalKeys])
  have h6 := h5 "resumen_corto" (by simp [canonicalKeys])
  have hall : pyAllIn canonicalKeys (.obj kvs) = .ok true := by
    simp [canonicalKeys, pyAllIn, pyIn, h1, h2, h3, h4, h6]
  constructor
  · refine ⟨{ titulo := jget kvs "titulo" (.str ""),
              explicacion_didactica := jget kvs "explicacion_didactica" (.str ""),
              puntos_clave := pyOr (jget kvs "puntos_clave" (.arr [])) (.arr []),
              conexiones := jget kvs "conexiones" (.str ""),
              resumen_corto := jget kvs "resumen_corto" (.str "") }, ?_,
            ?_, ?_, ?_, ?_, ?_⟩
    · unfold appNormalize
      rw [hall, bindOk]
      rfl
    · intro v hv; simp [jget, hv]
    · intro v hv; simp [jget, hv]
    · intro v hv; simp [jget, hv]
    · intro v hv; simp [jget, hv]
    · intro v hv; simp [jget, hv, pyOr]
  · refine ⟨{ titulo := jget kvs "titulo" (.str ("Slide " ++ toString n)),
              explicacion_didactica := jget kvs "explicacion_didactica" (.str ""),
              puntos_clave := pyOr (jget kvs "puntos_clave" (.arr [])) (.arr []),
              conexiones := jget kvs "conexiones" (.str ""),
              resumen_corto := jget kvs "resumen_corto" (.str ""),
              anki_cards := pyOr (jget kvs "anki_cards" (.arr [])) (.arr []) }, rfl,
            ?_, ?_, ?_, ?_, ?_, ?_⟩
    · intro v hv; simp [jget, hv]
    · intro v hv; simp [jget, hv]
    · intro v hv; simp [jget, hv]
    · intro v hv; simp [jget, hv]
    · intro v hv; simp [jget, hv, pyOr]
    · intro v hv; simp [jget, hv, pyOr]

/-- Witness for C8 as amended: a concrete object with all five canonical
keys, whose truthy puntos_clave is kept verbatim. -/
theorem C8_amended_witness :
    (∃ r, appNormalize (.obj [("titulo", Json.str "a"),
        ("explicacion_didactica", Json.str "b"),
        ("puntos_clave", Json.arr [Json.str "p"]),
        ("conexiones", Json.str "c"), ("resumen_corto", Json.str "d")]) 1 = .ok r ∧
      r.puntos_clave = .arr [.str "p"] ∧ r.titulo = .str "a") := by
  obtain ⟨r, hr, ht, _, _, _, hp⟩ :=
    (C8_amended [("titulo", Json.str "a"), ("explicacion_didactica", Json.str "b"),
      ("puntos_clave", Json.arr [Json.str "p"]), ("conexiones", Json.str "c"),
      ("resumen_corto", Json.str "d")] 1
      (by intro k hk; fin_cases hk <;> rfl)).1
  exact ⟨r, hr, hp (Json.arr [Json.str "p"]) rfl, ht (Json.str "a") rfl⟩

/-- Counterexample to claim C9: a legacy object whose resumen is the
non-empty string consisting of hola surrounded by spaces; the didactic
explanation produced is the stripped string, not the legacy resumen
itself. -/
theorem C9_counterexample :
    (∃ r, appNormalize (.obj [("resumen", Json.str "  hola  ")]) 1 = .ok r ∧
      r.explicacion_didactica = .str "hola") ∧
    Json.str "hola" ≠ Json.str "  hola  " :=
  ⟨⟨_, rfl, rfl⟩, fun h => absurd (Json.str.inj h) (by decide)⟩

/-- The returned didactic explanation value of the legacy branch, as a
non-empty string. -/
theorem explEq (pj : String) :
    ∃ e, Json.str (if pj ≠ "" then pj else "Explicación generada automáticamente.") =
        .str e ∧ e ≠ "" ∧
      e = (if pj = "" then "Explicación generada automáticamente." else pj) := by
  refine ⟨if pj = "" then "Explicación generada automáticamente." else pj, ?_, ?_, rfl⟩
  · by_cases h : pj = "" <;> simp [h]
  · by_cases h : pj = "" <;> simp [h]

/-- Claim C9 as amended: on a legacy-schema object (not all five canonical
keys present), the didactic explanation is always a non-empty string: the
stripped legacy resumen when that is a non-blank string; otherwise the
space-joined concatenation of the available legacy parts (list-typed key
points joined by spaces, a non-blank context stripped, list-typed insights
joined), or the fixed placeholder text when that concatenation is empty. -/
theorem C9_amended (kvs : List (String × Json)) (n : Nat) (pj : String)
    (hn5 : pyAllIn canonicalKeys (.obj kvs) = .ok false)
    (hpj : legacyPartsJoin (jget kvs "contenido_clave" (.arr []))
        (jget kvs "contexto" (.str "")) (jget kvs "insights" (.arr [])) = .ok pj) :
    ∃ r, appNormalize (.obj kvs) n = .ok r ∧
      ∃ e, r.explicacion_didactica = .str e ∧ e ≠ "" ∧
        e = legacyExplSpec (jget kvs "resumen" (.str "")) pj := by
  have hleg : appNormalize (.obj kvs) n = appLegacyNormalize (.obj kvs) n := by
    unfold appNormalize
    rw [hn5, bindOk]
    rfl
  rw [hleg]
  unfold appLegacyNormalize
  simp only [pyGet, bindOk]
  rcases hr : jget kvs "resumen" (.str "") with _ | b | m | rs | xs | os
  case str =>
    simp only [legacyExplicacion, legacyExplSpec]
    by_cases hb : pyStrip rs = ""
    · rw [if_neg (not_not_intro hb), hpj, bindOk, if_pos hb]
      exact ⟨_, rfl, explEq pj⟩
    · rw [if_pos hb, pureBind, if_neg hb]
      refine ⟨_, rfl, pyStrip rs, ?_, hb, rfl⟩
      simp [hb]
  all_goals simp only [legacyExplicacion, legacyExplSpec]
  all_goals rw [hpj, bindOk]
  all_goals exact ⟨_, rfl, explEq pj⟩

/-- Witness for C9 as amended: a legacy object carrying only a resumen. -/
theorem C9_amended_witness :
    ∃ r, appNormalize (.obj [("resumen", Json.str "x")]) 1 = .ok r ∧
      ∃ e, r.explicacion_didactica = .str e ∧ e ≠ "" ∧
        e = legacyExplSpec (jget [("resumen", Json.str "x")] "resumen" (.str "")) "" :=
  C9_amended [("resumen", Json.str "x")] 1 "" (by rfl) (by rfl)

/-- Counting over a range where the predicate holds exactly away from one
index below the bound. -/
theorem countP_range_ne (N j : Nat) (p : Nat → Bool) (hj : j < N)
    (hp : ∀ i, i < N → p i = decide (i ≠ j)) :
    (List.range N).countP p = N - 1 := by
  induction N with
  | zero => omega
  | succ N ih =>
    rw [List.range_succ, List.countP_append]
    rcases Nat.lt_succ_iff_lt_or_eq.mp hj with hlt | heq
    · have hN : p N = true := by
        rw [hp N (Nat.lt_succ_self N)]
        simp only [decide_eq_true_eq]
        omega
      have hsingle : List.countP p [N] = 1 := by
        simp [List.countP_cons, hN]
      rw [ih hlt (fun i hi => hp i (Nat.lt_succ_of_lt hi)), hsingle]
      omega
    · subst heq
      have hN : p j = false := by
        rw [hp j (Nat.lt_succ_self j)]
        exact decide_eq_false (by omega)
      have hpre : (List.range j).countP p = j := by
        calc (List.range j).countP p = (List.range j).length := by
              rw [List.countP_eq_length]
              intro a ha
              rw [hp a (Nat.lt_succ_of_lt (List.mem_range.mp ha))]
              have := List.mem_range.mp ha
              exact decide_eq_true (by omega)
          _ = j := List.length_range j
      have hsingle : List.countP p [j] = 0 := by
        simp [List.countP_cons, hN]
      rw [hpre, hsingle]
      omega

/-- Counting over a range where the predicate holds exactly at one index
below the bound. -/
theorem countP_range_eq (N j : Nat) (p : Nat → Bool) (hj : j < N)
    (hp : ∀ i, i < N → p i = decide (i = j)) :
    (List.range N).countP p = 1 := by
  induction N with
  | zero => omega
  | succ N ih =>
    rw [List.range_succ, List.countP_append]
    rcases Nat.lt_succ_iff_lt_or_eq.mp hj with hlt | heq
    · have hN : p N = false := by
        rw [hp N (Nat.lt_succ_self N)]
        simp only [decide_eq_false_iff_not]
        omega
      have hsingle : List.countP p [N] = 0 := by
        simp [List.countP_cons, hN]
      rw [ih hlt (fun i hi => hp i (Nat.lt_succ_of_lt hi)), hsingle]
    · subst heq
      have hN : p j = true := by
        rw [hp j (Nat.lt_succ_self j)]
        exact decide_eq_true rfl
      have hpre : (List.range j).countP p = 0 := by
        rw [List.countP_eq_zero]
        intro a ha
        rw [hp a (Nat.lt_succ_of_lt (List.mem_range.mp ha))]
        simp only [decide_eq_true_eq]
        have := List.mem_range.mp ha
        omega
      have hsingle : List.countP p [j] = 1 := by
        simp [List.countP_cons, hN]
      rw [hpre, hsingle]

/-- The result of analysing slide n carries slide number n, whatever the
outcome. -/
theorem explainSlideW_slideNumber (mc : Except String String) (n : Nat) :
    (explainSlideW mc n).slideNumber = n := by
  unfold explainSlideW
  split
  · rfl
  · split
    · rfl
    · split <;> rfl

/-- Every flashcard collected from one slide's cards carries that slide's
number. -/
theorem summaryCardsOf_slide (n : Nat) (cards : List Json) (cs : List SummaryCard)
    (h : summaryCardsOf n cards = .ok cs) : ∀ c ∈ cs, c.slide_number = n := by
  induction cards generalizing cs with
  | nil =>
    have hcs : cs = [] := (Except.ok.inj h).symm
    subst hcs
    simp
  | cons c0 rest ih =>
    simp only [summaryCardsOf] at h
    rcases h1 : pyGet c0 "pregunta" (.str "") with e | f
    · rw [h1, errorBind] at h
      exact Except.noConfusion h
    · rw [h1, bindOk] at h
      rcases h2 : pyGet c0 "respuesta" (.str "") with e | b
      · rw [h2, errorBind] at h
        exact Except.noConfusion h
      · rw [h2, bindOk] at h
        rcases h3 : summaryCardsOf n rest with e | tail
        · rw [h3, errorBind] at h
          exact Except.noConfusion h
        · rw [h3, bindOk, pureEqOk] at h
          have hcs := (Except.ok.inj h).symm
          subst hcs
          intro c hc
          rcases List.mem_cons.mp hc with hce | hcm
          · rw [hce]
          · exact ih tail h3 c hcm

/-- Every flashcard of the summary comes from a success record present in
the explanation list, and carries that record's slide number. -/
theorem summaryParts_card_mem (exps : List WSlideResult) (ss : List SummarySlide)
    (cs : List SummaryCard) (h : summaryParts exps = .ok (ss, cs)) :
    ∀ c ∈ cs, ∃ r, WSlideResult.ok c.slide_number r ∈ exps := by
  induction exps generalizing ss cs with
  | nil =>
    have hcs : ([], []) = ((ss, cs) : List SummarySlide × List SummaryCard) :=
      Except.ok.inj h
    obtain ⟨hss, hcs2⟩ := Prod.mk.inj hcs
    intro c hc
    rw [← hcs2] at hc
    simp at hc
  | cons hd rest ih =>
    cases hd with
    | err m e0 =>
      have h' : summaryParts rest = .ok (ss, cs) := h
      intro c hc
      obtain ⟨r, hr⟩ := ih ss cs h' c hc
      exact ⟨r, List.mem_cons_of_mem _ hr⟩
    | ok m r0 =>
      simp only [summaryParts] at h
      rcases h1 : pyIter r0.anki_cards with e | cards
      · rw [h1, errorBind] at h
        exact Except.noConfusion h
      · rw [h1, bindOk] at h
        rcases h2 : summaryCardsOf m cards with e | cs1
        · rw [h2, errorBind] at h
          exact Except.noConfusion h
        · rw [h2, bindOk] at h
          rcases h3 : summaryParts rest with e | pr
          · rw [h3, errorBind] at h
            exact Except.noConfusion h
          · obtain ⟨ss', cs'⟩ := pr
            rw [h3, bindOk, pureEqOk] at h
            have hpair := Except.ok.inj h
            have hss : summarySlideOf m r0 :: ss' = ss := congrArg Prod.fst hpair
            have hcs : cs1 ++ cs' = cs := congrArg Prod.snd hpair
            intro c hc
            rw [← hcs] at hc
            rcases List.mem_append.mp hc with hc1 | hc2
            · have hn := summaryCardsOf_slide m cards cs1 h2 c hc1
              refine ⟨r0, ?_⟩
              rw [hn]
              exact List.mem_cons_self _ _
            · obtain ⟨r, hr⟩ := ih ss' cs' h3 c hc2
              exact ⟨r, List.mem_cons_of_mem _ hr⟩

/-- Claim C3: in a batch of N slides where exactly the analysis of slide
j plus 1 raises and every other slide's analysis succeeds, the explanation
list has exactly N entries, N minus 1 of them successful and exactly one
failed, the failed entry sits at position j and carries an error message;
the summary built from the list reports total_slides equal to N and its
flashcard list contains no card from the failed slide. -/
theorem C3_batch_isolation (texts : Nat → Except String String) (N j : Nat)
    (hj : j < N)
    (hfail : ∃ e, explainSlideW (texts (j + 1)) (j + 1) = .err (j + 1) e)
    (hok : ∀ i, i < N → i ≠ j →
      ∃ r, explainSlideW (texts (i + 1)) (i + 1) = .ok (i + 1) r) :
    (batchExplain texts N).length = N
    ∧ (batchExplain texts N).countP (fun r => r.isOk) = N - 1
    ∧ (batchExplain texts N).countP (fun r => !r.isOk) = 1
    ∧ (∃ e, (batchExplain texts N)[j]? = some (.err (j + 1) e))
    ∧ ∀ summary, generateSummaryJson (batchExplain texts N) = .ok summary →
        summary.total_slides = N ∧
        ∀ c ∈ summary.anki_cards, c.slide_number ≠ j + 1 := by
  refine ⟨by simp [batchExplain], ?_, ?_, ?_, ?_⟩
  · rw [batchExplain, List.countP_map]
    refine countP_range_ne N j _ hj ?_
    intro i hi
    by_cases hij : i = j
    · subst hij
      obtain ⟨e, he⟩ := hfail
      simp [Function.comp, he, WSlideResult.isOk]
    · obtain ⟨r, hr⟩ := hok i hi hij
      simp [Function.comp, hr, WSlideResult.isOk, hij]
  · rw [batchExplain, List.countP_map]
    refine countP_range_eq N j _ hj ?_
    intro i hi
    by_cases hij : i = j
    · subst hij
      obtain ⟨e, he⟩ := hfail
      simp [Function.comp, he, WSlideResult.isOk]
    · obtain ⟨r, hr⟩ := hok i hi hij
      simp [Function.comp, hr, WSlideResult.isOk, hij]
  · obtain ⟨e, he⟩ := hfail
    refine ⟨e, ?_⟩
    rw [batchExplain, List.getElem?_map, List.getElem?_range hj]
    simp [he]
  · intro summary hsum
    unfold generateSummaryJson at hsum
    rcases hsp : summaryParts (batchExplain texts N) with e | pr
    · rw [hsp] at hsum
      exact Except.noConfusion hsum
    · obtain ⟨ss, cs⟩ := pr
      rw [hsp] at hsum
      have hsummary := (Except.ok.inj hsum).symm
      subst hsummary
      constructor
      · simp [batchExplain]
      · intro c hc heq
        obtain ⟨r, hmem⟩ := summaryParts_card_mem _ ss cs hsp c hc
        rw [heq] at hmem
        rw [batchExplain] at hmem
        obtain ⟨i, hi, hfi⟩ := List.mem_map.mp hmem
        have hslide : (explainSlideW (texts (i + 1)) (i + 1)).slideNumber = i + 1 :=
          explainSlideW_slideNumber _ _
        rw [hfi] at hslide
        have hij : i = j := by
          have h' : j + 1 = i + 1 := hslide
          omega
        subst hij
        obtain ⟨e, he⟩ := hfail
        rw [he] at hfi
        exact WSlideResult.noConfusion hfi

/-- Witness for C3: two slides, the first throwing, the second returning a
parseable object. -/
theorem C3_batch_isolation_witness :
    (batchExplain (fun i => if i == 1 then .error "boom"
        else .ok "\x7b\"titulo\": \"T\"\x7d") 2).length = 2
    ∧ (batchExplain (fun i => if i == 1 then .error "boom"
        else .ok "\x7b\"titulo\": \"T\"\x7d") 2).countP (fun r => r.isOk) = 2 - 1
    ∧ (batchExplain (fun i => if i == 1 then .error "boom"
        else .ok "\x7b\"titulo\": \"T\"\x7d") 2).countP (fun r => !r.isOk) = 1
    ∧ (∃ e, (batchExplain (fun i => if i == 1 then .error "boom"
        else .ok "\x7b\"titulo\": \"T\"\x7d") 2)[0]? = some (.err (0 + 1) e))
    ∧ ∀ summary, generateSummaryJson (batchExplain (fun i => if i == 1 then .error "boom"
        else .ok "\x7b\"titulo\": \"T\"\x7d") 2) = .ok summary →
        summary.total_slides = 2 ∧
        ∀ c ∈ summary.anki_cards, c.slide_number ≠ 0 + 1 := by
  refine C3_batch_isolation _ 2 0 (by norm_num) ⟨"boom", by rfl⟩ ?_
  intro i hi hne
  interval_cases i
  · exact absurd rfl hne
  · exact ⟨_, by rfl⟩

/-- A decoded JSON object is a member of a list headed by a value of a
different constructor exactly when it is a member of the tail. -/
theorem mem_cons_of_ne_obj (c : Json) (hc : ∀ kvs, Json.obj kvs ≠ c)
    (rest : List Json) (kvs : List (String × Json)) :
    (Json.obj kvs ∈ c :: rest) ↔ Json.obj kvs ∈ rest := by
  rw [List.mem_cons]
  constructor
  · rintro (hh | hh)
    · exact absurd hh (hc kvs)
    · exact hh
  · exact Or.inr

/-- Membership in the notes collected from one slide's card list: a note is
included exactly for a dict entry whose stripped question and answer are
both non-empty, and it carries those stripped values together with the
slide-and-title source field. -/
theorem ankiNotesOfCards_mem (n : Nat) (t : Json) (cards : List Json)
    (ns : List AnkiNote) (h : ankiNotesOfCards n t cards = .ok ns) (note : AnkiNote) :
    (note ∈ ns ↔ ∃ kvs p q, Json.obj kvs ∈ cards ∧
      pyStripJ (jget kvs "pregunta" (.str "")) = .ok p ∧
      pyStripJ (jget kvs "respuesta" (.str "")) = .ok q ∧
      p ≠ "" ∧ q ≠ "" ∧
      note = { question := p, answer := q, source := noteSource n t }) := by
  induction cards generalizing ns with
  | nil =>
    have hns : ns = [] := (Except.ok.inj h).symm
    subst hns
    simp
  | cons c rest ih =>
    cases c with
    | obj kvs =>
      simp only [ankiNotesOfCards] at h
      rcases h1 : pyStripJ (jget kvs "pregunta" (.str "")) with e | p
      · rw [h1, errorBind] at h
        exact Except.noConfusion h
      · rw [h1, bindOk] at h
        rcases h2 : pyStripJ (jget kvs "respuesta" (.str "")) with e | q
        · rw [h2, errorBind] at h
          exact Except.noConfusion h
        · rw [h2, bindOk] at h
          rcases h3 : ankiNotesOfCards n t rest with e | tail
          · rw [h3, errorBind] at h
            exact Except.noConfusion h
          · rw [h3, bindOk] at h
            by_cases hcond : p ≠ "" ∧ q ≠ ""
            · rw [if_pos hcond, pureEqOk] at h
              have hns := (Except.ok.inj h).symm
              subst hns
              constructor
              · intro hmem
                rcases List.mem_cons.mp hmem with he | hm
                · exact ⟨kvs, p, q, List.mem_cons_self _ _, h1, h2,
                    hcond.1, hcond.2, he⟩
                · obtain ⟨kvs', p', q', hA, hB, hC, hD, hE, hF⟩ := (ih tail h3).mp hm
                  exact ⟨kvs', p', q', List.mem_cons_of_mem _ hA, hB, hC, hD, hE, hF⟩
              · rintro ⟨kvs', p', q', hA, hB, hC, hD, hE, hF⟩
                rcases List.mem_cons.mp hA with hh | hm
                · have hk := Json.obj.inj hh
                  subst hk
                  rw [h1] at hB
                  rw [h2] at hC
                  have hp := Except.ok.inj hB
                  have hq := Except.ok.inj hC
                  refine List.mem_cons.mpr (Or.inl ?_)
                  rw [hF, ← hp, ← hq]
                · exact List.mem_cons_of_mem _
                    ((ih tail h3).mpr ⟨kvs', p', q', hm, hB, hC, hD, hE, hF⟩)
            · rw [if_neg hcond, pureEqOk] at h
              have hns := (Except.ok.inj h).symm
              subst hns
              rw [ih ns h3]
              constructor
              · rintro ⟨kvs', p', q', hA, hB, hC, hD, hE, hF⟩
                exact ⟨kvs', p', q', List.mem_cons_of_mem _ hA, hB, hC, hD, hE, hF⟩
              · rintro ⟨kvs', p', q', hA, hB, hC, hD, hE, hF⟩
                rcases List.mem_cons.mp hA with hh | hm
                · have hk := Json.obj.inj hh
                  subst hk
                  rw [h1] at hB
                  rw [h2] at hC
                  have hp := Except.ok.inj hB
                  have hq := Except.ok.inj hC
                  exact absurd ⟨by rw [hp]; exact hD, by rw [hq]; exact hE⟩ hcond
                · exact ⟨kvs', p', q', hm, hB, hC, hD, hE, hF⟩
    | null =>
      have h' : ankiNotesOfCards n t rest = .ok ns := h
      rw [ih ns h']
      constructor
      · rintro ⟨kvs, p, q, hA, hB, hC, hD, hE, hF⟩
        exact ⟨kvs, p, q, List.mem_cons_of_mem _ hA, hB, hC, hD, hE, hF⟩
      · rintro ⟨kvs, p, q, hA, hB, hC, hD, hE, hF⟩
        rcases List.mem_cons.mp hA with hh | hm
        · exact Json.noConfusion hh
        · exact ⟨kvs, p, q, hm, hB, hC, hD, hE, hF⟩
    | bool b =>
      have h' : ankiNotesOfCards n t rest = .ok ns := h
      rw [ih ns h']
      constructor
      · rintro ⟨kvs, p, q, hA, hB, hC, hD, hE, hF⟩
        exact ⟨kvs, p, q, List.mem_cons_of_mem _ hA, hB, hC, hD, hE, hF⟩
      · rintro ⟨kvs, p, q, hA, hB, hC, hD, hE, hF⟩
        rcases List.mem_cons.mp hA with hh | hm
        · exact Json.noConfusion hh
        · exact ⟨kvs, p, q, hm, hB, hC, hD, hE, hF⟩
    | num m =>
      have h' : ankiNotesOfCards n t rest = .ok ns := h
      rw [ih ns h']
      constructor
      · rintro ⟨kvs, p, q, hA, hB, hC, hD, hE, hF⟩
        exact ⟨kvs, p, q, List.mem_cons_of_mem _ hA, hB, hC, hD, hE, hF⟩
      · rintro ⟨kvs, p, q, hA, hB, hC, hD, hE, hF⟩
        rcases List.mem_cons.mp hA with hh | hm
        · exact Json.noConfusion hh
        · exact ⟨kvs, p, q, hm, hB, hC, hD, hE, hF⟩
    | str st =>
      have h' : ankiNotesOfCards n t rest = .ok ns := h
      rw [ih ns h']
      constructor
      · rintro ⟨kvs, p, q, hA, hB, hC, hD, hE, hF⟩
        exact ⟨kvs, p, q, List.mem_cons_of_mem _ hA, hB, hC, hD, hE, hF⟩
      · rintro ⟨kvs, p, q, hA, hB, hC, hD, hE, hF⟩
        rcases List.mem_cons.mp hA with hh | hm
        · exact Json.noConfusion hh
        · exact ⟨kvs, p, q, hm, hB, hC, hD, hE, hF⟩
    | arr xs =>
      have h' : ankiNotesOfCards n t rest = .ok ns := h
      rw [ih ns h']
      constructor
      · rintro ⟨kvs, p, q, hA, hB, hC, hD, hE, hF⟩
        exact ⟨kvs, p, q, List.mem_cons_of_mem _ hA, hB, hC, hD, hE, hF⟩
      · rintro ⟨kvs, p, q, hA, hB, hC, hD, hE, hF⟩
        rcases List.mem_cons.mp hA with hh | hm
        · exact Json.noConfusion hh
        · exact ⟨kvs, p, q, hm, hB, hC, hD, hE, hF⟩

/-- Membership in the notes of the whole package: a note is included exactly
when it comes from a success record of the explanation list through a valid
card entry. -/
theorem ankiNotesOf_mem (exps : List WSlideResult) (ns : List AnkiNote)
    (h : ankiNotesOf exps = .ok ns) (note : AnkiNote) :
    (note ∈ ns ↔ ∃ n r cards kvs p q, WSlideResult.ok n r ∈ exps ∧
      pyIter r.anki_cards = .ok cards ∧ Json.obj kvs ∈ cards ∧
      pyStripJ (jget kvs "pregunta" (.str "")) = .ok p ∧
      pyStripJ (jget kvs "respuesta" (.str "")) = .ok q ∧
      p ≠ "" ∧ q ≠ "" ∧
      note = { question := p, answer := q, source := noteSource n r.titulo }) := by
  induction exps generalizing ns with
  | nil =>
    have hns : ns = [] := (Except.ok.inj h).symm
    subst hns
    simp
  | cons hd rest ih =>
    cases hd with
    | err m e0 =>
      have h' : ankiNotesOf rest = .ok ns := h
      rw [ih ns h']
      constructor
      · rintro ⟨n, r, cards, kvs, p, q, hm, hrest⟩
        exact ⟨n, r, cards, kvs, p, q, List.mem_cons_of_mem _ hm, hrest⟩
      · rintro ⟨n, r, cards, kvs, p, q, hm, hrest⟩
        rcases List.mem_cons.mp hm with hh | hm'
        · exact WSlideResult.noConfusion hh
        · exact ⟨n, r, cards, kvs, p, q, hm', hrest⟩
    | ok m r0 =>
      simp only [ankiNotesOf] at h
      rcases h1 : pyIter r0.anki_cards with e | cards0
      · rw [h1, errorBind] at h
        exact Except.noConfusion h
      · rw [h1, bindOk] at h
        rcases h2 : ankiNotesOfCards m r0.titulo cards0 with e | ns0
        · rw [h2, errorBind] at h
          exact Except.noConfusion h
        · rw [h2, bindOk] at h
          rcases h3 : ankiNotesOf rest with e | tail
          · rw [h3, errorBind] at h
            exact Except.noConfusion h
          · rw [h3, bindOk, pureEqOk] at h
            have hns := (Except.ok.inj h).symm
            subst hns
            rw [List.mem_append,
              ankiNotesOfCards_mem m r0.titulo cards0 ns0 h2 note, ih tail h3]
            constructor
            · rintro (⟨kvs, p, q, hck, hB, hC, hD, hE, hF⟩ |
                ⟨n, r, cards, kvs, p, q, hm, hrest⟩)
              · exact ⟨m, r0, cards0, kvs, p, q, List.mem_cons_self _ _,
                  h1, hck, hB, hC, hD, hE, hF⟩
              · exact ⟨n, r, cards, kvs, p, q, List.mem_cons_of_mem _ hm, hrest⟩
            · rintro ⟨n, r, cards, kvs, p, q, hm, hIter, hck, hB, hC, hD, hE, hF⟩
              rcases List.mem_cons.mp hm with hh | hm'
              · obtain ⟨hn, hr⟩ := WSlideResult.ok.inj hh
                subst hn
                subst hr
                left
                rw [h1] at hIter
                have hc := Except.ok.inj hIter
                subst hc
                exact ⟨kvs, p, q, hck, hB, hC, hD, hE, hF⟩
              · right
                exact ⟨n, r, cards, kvs, p, q, hm', hIter, hck, hB, hC, hD, hE, hF⟩

/-- Claim C10: the generated flashcard package uses the fixed model id
1607392319 and deck id 2059400110, and contains a note exactly for each card
of a success record that is a dict whose stripped pregunta and respuesta are
both non-empty; each included note's third field records the originating
slide number and title. -/
theorem C10_anki_package (exps : List WSlideResult) (pkg : AnkiPackage)
    (h : generateAnkiPackage exps = .ok pkg) :
    pkg.modelId = 1607392319 ∧ pkg.deckId = 2059400110 ∧
    ∀ note, note ∈ pkg.notes ↔ ∃ n r cards kvs p q, WSlideResult.ok n r ∈ exps ∧
      pyIter r.anki_cards = .ok cards ∧ Json.obj kvs ∈ cards ∧
      pyStripJ (jget kvs "pregunta" (.str "")) = .ok p ∧
      pyStripJ (jget kvs "respuesta" (.str "")) = .ok q ∧
      p ≠ "" ∧ q ≠ "" ∧
      note = { question := p, answer := q, source := noteSource n r.titulo } := by
  unfold generateAnkiPackage at h
  rcases hn : ankiNotesOf exps with e | ns
  · rw [hn] at h
    exact Except.noConfusion h
  · rw [hn] at h
    have hpkg := (Except.ok.inj h).symm
    subst hpkg
    exact ⟨rfl, rfl, fun note => ankiNotesOf_mem exps ns hn note⟩

/-- Witness for C10: a concrete list with one success record holding one
valid and one invalid card entry, and one failure record. -/
theorem C10_anki_package_witness :
    ∃ pkg, generateAnkiPackage c10Exps = .ok pkg ∧
      pkg.modelId = 1607392319 ∧ pkg.deckId = 2059400110 ∧
      pkg.notes = [{ question := "q", answer := "r",
                     source := noteSource 1 (.str "T") }] := by
  obtain ⟨h1, h2, _⟩ := C10_anki_package c10Exps
    { modelId := 1607392319, deckId := 2059400110, deckName := "Lecture Notes",
      notes := [{ question := "q", answer := "r",
                  source := noteSource 1 (.str "T") }] } (by rfl)
  exact ⟨_, by rfl, h1, h2, rfl⟩

end DiaposAI
